import Mathlib

/-!
A shallow embedding of the `mcp-weather-stdio` service:
`weather_server.py` (tool handler), `weather_util/client.py` (HTTP fetch with
retry) and `weather_util/forecast.py` (the forecast data model).  The payload
is modelled as a JSON-like tree whose scalar leaves are strings, which is the
shape the upstream `wttr.in` j1 endpoint produces.  Python exceptions are
modelled by an explicit error type and `Except`; `datetime.strptime` is
modelled by matchers that follow CPython's per-directive regexes, including
their alternation order and the trailing "unconverted data remains" check.
The modules `weather_util/enums.py` and `weather_util/constants.py` are
imported by the sources but are not part of the repository snapshot; the
definitions that stand in for them are each marked `Modelled from the spec:`.
-/

namespace WeatherMcp

/-- Numeric value of a decimal digit character. -/
def dval (c : Char) : Nat := c.toNat - 48

/-- Python `str.strip()`: surrounding whitespace removed. -/
def pyStrip (cs : List Char) : List Char :=
  ((cs.dropWhile Char.isWhitespace).reverse.dropWhile Char.isWhitespace).reverse

/-- `str.strip()` on a string value. -/
def pyStripStr (s : String) : String := String.mk (pyStrip s.toList)

/-- Split a character list on a separator character (every occurrence). -/
def splitCharList (sep : Char) : List Char → List (List Char)
  | [] => [[]]
  | c :: rest =>
    let r := splitCharList sep rest
    if c = sep then [] :: r
    else
      match r with
      | h :: t => (c :: h) :: t
      | [] => [[c]]

/-- Split a character list at the first occurrence of a pattern, returning
the parts before and after it. -/
def findSplit (pat : List Char) : List Char → Option (List Char × List Char)
  | [] => if pat.isEmpty then some ([], []) else none
  | c :: rest =>
    if pat.isPrefixOf (c :: rest) then some ([], (c :: rest).drop pat.length)
    else
      match findSplit pat rest with
      | some (pre, post) => some (c :: pre, post)
      | none => none

/-- Value of a list of decimal digit characters, most significant first. -/
def digitsToNat (cs : List Char) : Nat := cs.foldl (fun a c => a * 10 + dval c) 0

/-- Python exceptions, as far as this service raises or handles them. -/
inductive PyErr where
  | keyError : String → PyErr
  | valueError : String → PyErr
  | typeError : String → PyErr
  | indexError : String → PyErr
  | jsonDecodeError : PyErr
  | httpStatusError : Nat → PyErr
  | requestError : String → PyErr
  | runtimeError : String → PyErr
deriving DecidableEq, Repr

/-- Python `str(e)`: `KeyError` renders its key quoted, the others render
their message (the exact httpx message text is abstracted to the status). -/
def PyErr.message : PyErr → String
  | .keyError k => "\x27" ++ k ++ "\x27"
  | .valueError m => m
  | .typeError m => m
  | .indexError m => m
  | .jsonDecodeError => "Expecting value"
  | .httpStatusError st => "HTTP status error " ++ toString st
  | .requestError m => m
  | .runtimeError m => m

/-- The data-shape errors of the parsing layer (the spec's
`MalformedPayloadError` family): in Python these are the `KeyError`,
`ValueError`, `TypeError` and `IndexError` raised while reading the payload,
as opposed to transport-level errors. -/
def structuredErr : PyErr → Prop
  | .keyError _ => True
  | .valueError _ => True
  | .typeError _ => True
  | .indexError _ => True
  | _ => False

/-- Python `int(s)` on a string: surrounding whitespace stripped, optional
sign, at least one digit (underscore grouping is not used by this payload
model). -/
def pyInt (s : String) : Except PyErr Int :=
  let p : Int × List Char :=
    match pyStrip s.toList with
    | '-' :: r => (-1, r)
    | '+' :: r => (1, r)
    | r => (1, r)
  if p.2 ≠ [] ∧ p.2.all Char.isDigit then
    .ok (p.1 * (digitsToNat p.2 : Int))
  else
    .error (.valueError ("invalid literal for int with base 10: " ++ s))

/-- An exact fraction `num / den`, the model of a Python float value (kept
unnormalized so every arithmetic step is a plain computation).  The spec
fixes the numeric semantics as "truncation/rounding-free direct
conversions", which this representation realizes exactly. -/
structure PyNum where
  num : Int
  den : Nat
deriving DecidableEq, Repr

/-- Division of a float value by a (positive) unit divisor. -/
def PyNum.div (a b : PyNum) : PyNum := ⟨a.num * (b.den : Int), a.den * b.num.toNat⟩

/-- Python `float(s)` on a plain decimal string: surrounding whitespace
stripped, optional sign, `digits`, `digits.digits`, `.digits` or `digits.`
(exponent and inf/nan forms are outside this payload model).  The result is
the exact decimal value. -/
def pyFloat (s : String) : Except PyErr PyNum :=
  let p : Int × List Char :=
    match pyStrip s.toList with
    | '-' :: r => (-1, r)
    | '+' :: r => (1, r)
    | r => (1, r)
  let err : Except PyErr PyNum :=
    .error (.valueError ("could not convert string to float: " ++ s))
  match splitCharList '.' p.2 with
  | [a] =>
    if a ≠ [] ∧ a.all Char.isDigit then
      .ok ⟨p.1 * (digitsToNat a : Int), 1⟩
    else err
  | [a, b] =>
    if (a ≠ [] ∨ b ≠ []) ∧ a.all Char.isDigit ∧ b.all Char.isDigit then
      .ok ⟨p.1 * ((digitsToNat a * 10 ^ b.length + digitsToNat b : Nat) : Int),
           10 ^ b.length⟩
    else err
  | _ => err

/-- A clock time (hour, minute), the result of `datetime.time()`. -/
structure TimeOfDay where
  hour : Nat
  minute : Nat
deriving DecidableEq, Repr

/-- A calendar date, the result of `datetime.date()`. -/
structure DateD where
  year : Nat
  month : Nat
  day : Nat
deriving DecidableEq, Repr

/-- A local date-time. -/
structure DateTimeD where
  date : DateD
  time : TimeOfDay
deriving DecidableEq, Repr

/-- CPython strptime directive `%H`, regex `(2[0-3]|[0-1]\d|\d)` with the
alternatives tried in that order. -/
def matchHour24 : List Char → Option (Nat × List Char)
  | c1 :: c2 :: rest =>
    if c1 = '2' ∧ '0' ≤ c2 ∧ c2 ≤ '3' then some (20 + dval c2, rest)
    else if (c1 = '0' ∨ c1 = '1') ∧ c2.isDigit then some (10 * dval c1 + dval c2, rest)
    else if c1.isDigit then some (dval c1, c2 :: rest)
    else none
  | [c1] => if c1.isDigit then some (dval c1, []) else none
  | [] => none

/-- CPython strptime directive `%M`, regex `([0-5]\d|\d)`. -/
def matchMinute : List Char → Option (Nat × List Char)
  | c1 :: c2 :: rest =>
    if '0' ≤ c1 ∧ c1 ≤ '5' ∧ c2.isDigit then some (10 * dval c1 + dval c2, rest)
    else if c1.isDigit then some (dval c1, c2 :: rest)
    else none
  | [c1] => if c1.isDigit then some (dval c1, []) else none
  | [] => none

/-- CPython strptime directives `%I` and `%m`, regex `(1[0-2]|0[1-9]|[1-9])`. -/
def matchOneTo12 : List Char → Option (Nat × List Char)
  | c1 :: c2 :: rest =>
    if c1 = '1' ∧ '0' ≤ c2 ∧ c2 ≤ '2' then some (10 + dval c2, rest)
    else if c1 = '0' ∧ '1' ≤ c2 ∧ c2 ≤ '9' then some (dval c2, rest)
    else if '1' ≤ c1 ∧ c1 ≤ '9' then some (dval c1, c2 :: rest)
    else none
  | [c1] => if '1' ≤ c1 ∧ c1 ≤ '9' then some (dval c1, []) else none
  | [] => none

/-- CPython strptime directive `%d`, regex `(3[01]|[1-2]\d|0[1-9]|[1-9])`. -/
def matchDay : List Char → Option (Nat × List Char)
  | c1 :: c2 :: rest =>
    if c1 = '3' ∧ (c2 = '0' ∨ c2 = '1') then some (30 + dval c2, rest)
    else if (c1 = '1' ∨ c1 = '2') ∧ c2.isDigit then some (10 * dval c1 + dval c2, rest)
    else if c1 = '0' ∧ '1' ≤ c2 ∧ c2 ≤ '9' then some (dval c2, rest)
    else if '1' ≤ c1 ∧ c1 ≤ '9' then some (dval c1, c2 :: rest)
    else none
  | [c1] => if '1' ≤ c1 ∧ c1 ≤ '9' then some (dval c1, []) else none
  | [] => none

/-- CPython strptime directive `%Y`, regex `\d\d\d\d`. -/
def matchYear4 : List Char → Option (Nat × List Char)
  | a :: b :: c :: d :: rest =>
    if a.isDigit ∧ b.isDigit ∧ c.isDigit ∧ d.isDigit then
      some (1000 * dval a + 100 * dval b + 10 * dval c + dval d, rest)
    else none
  | _ => none

/-- Whitespace in a strptime format string matches `\s+`. -/
def matchSpaces1 : List Char → Option (List Char)
  | c :: rest => if c.isWhitespace then some (rest.dropWhile Char.isWhitespace) else none
  | [] => none

/-- CPython strptime directive `%p` for the C/en locale: `AM` or `PM`,
case-insensitively.  Returns `true` for PM. -/
def matchAmPm : List Char → Option (Bool × List Char)
  | a :: b :: rest =>
    if (a = 'A' ∨ a = 'a') ∧ (b = 'M' ∨ b = 'm') then some (false, rest)
    else if (a = 'P' ∨ a = 'p') ∧ (b = 'M' ∨ b = 'm') then some (true, rest)
    else none
  | _ => none

/-- `datetime.strptime(t, "%H%M").time()`: the two directives in sequence,
then strptime's requirement that no unconverted data remain. -/
def matchHM (cs : List Char) : Option TimeOfDay := do
  let (h, r1) ← matchHour24 cs
  let (m, r2) ← matchMinute r1
  if r2 = [] then some ⟨h, m⟩ else none

/-- `forecast.py` line 167: `time() if len(t) < 3 else
datetime.strptime(t, "%H%M").time()`. -/
def parseHHMM (t : String) : Except PyErr TimeOfDay :=
  if t.length < 3 then .ok ⟨0, 0⟩
  else
    match matchHM t.toList with
    | some tod => .ok tod
    | none => .error (.valueError ("time data " ++ t ++ " does not match format %H%M"))

/-- Convert a 12-hour clock reading to a 24-hour `TimeOfDay` the way
strptime's `%I`/`%p` post-processing does. -/
def from12 (h12 : Nat) (pm : Bool) (m : Nat) : TimeOfDay :=
  if pm then ⟨if h12 = 12 then 12 else h12 + 12, m⟩
  else ⟨if h12 = 12 then 0 else h12, m⟩

/-- `DailyForecast.__parse_time` (`forecast.py` lines 257-262):
`datetime.strptime(timestamp, "%I:%M %p").time()` with `ValueError`
swallowed, i.e. a total function into `Option`. -/
def parse12 (s : String) : Option TimeOfDay := do
  let (h12, r1) ← matchOneTo12 s.toList
  let r2 ← match r1 with
    | ':' :: r => some r
    | _ => none
  let (m, r3) ← matchMinute r2
  let r4 ← matchSpaces1 r3
  let (pm, r5) ← matchAmPm r4
  if r5 = [] then some (from12 h12 pm m) else none

/-- Gregorian leap year, as `datetime.date` validates it. -/
def isLeap (y : Nat) : Bool := y % 4 = 0 ∧ (y % 100 ≠ 0 ∨ y % 400 = 0)

/-- Days in a month, as `datetime.date` validates it. -/
def daysInMonth (y m : Nat) : Nat :=
  if m = 2 then (if isLeap y then 29 else 28)
  else if m = 4 ∨ m = 6 ∨ m = 9 ∨ m = 11 then 30
  else 31

/-- The `%Y-%m-%d` part of a strptime match, with the `datetime` constructor's
range validation folded in (a failing construction is a `ValueError` exactly
like a failing regex match). -/
def matchYMD (cs : List Char) : Option (DateD × List Char) := do
  let (y, r1) ← matchYear4 cs
  let r2 ← match r1 with
    | '-' :: r => some r
    | _ => none
  let (m, r3) ← matchOneTo12 r2
  let r4 ← match r3 with
    | '-' :: r => some r
    | _ => none
  let (d, r5) ← matchDay r4
  if 1 ≤ y ∧ d ≤ daysInMonth y m then some (⟨y, m, d⟩, r5) else none

/-- `datetime.strptime(s, "%Y-%m-%d").date()` (`forecast.py` line 247). -/
def parseDateYMD (s : String) : Except PyErr DateD :=
  match matchYMD s.toList with
  | some (d, []) => .ok d
  | _ => .error (.valueError ("time data " ++ s ++ " does not match format %Y-%m-%d"))

/-- `datetime.strptime(s, "%Y-%m-%d %I:%M %p")` (`forecast.py` line 316). -/
def parseObsDateTime (s : String) : Except PyErr DateTimeD :=
  let r : Option DateTimeD := do
    let (d, r1) ← matchYMD s.toList
    let r2 ← matchSpaces1 r1
    let (h12, r3) ← matchOneTo12 r2
    let r4 ← match r3 with
      | ':' :: r => some r
      | _ => none
    let (m, r5) ← matchMinute r4
    let r6 ← matchSpaces1 r5
    let (pm, r7) ← matchAmPm r6
    if r7 = [] then some ⟨d, from12 h12 pm m⟩ else none
  match r with
  | some dt => .ok dt
  | none => .error (.valueError ("time data " ++ s ++ " does not match format %Y-%m-%d %I:%M %p"))

/-- Zero-pad a numeral to two digits, as `strftime` does. -/
def pad2 (n : Nat) : String := if n < 10 then "0" ++ toString n else toString n

/-- Zero-pad a numeral to four digits, as `strftime` does. -/
def pad4 (n : Nat) : String :=
  if n < 10 then "000" ++ toString n
  else if n < 100 then "00" ++ toString n
  else if n < 1000 then "0" ++ toString n
  else toString n

/-- `date.strftime("%Y-%m-%d")` (`weather_server.py` line 72). -/
def strftimeYMD (d : DateD) : String :=
  pad4 d.year ++ "-" ++ pad2 d.month ++ "-" ++ pad2 d.day

/-- A JSON value as delivered by the weather source: the j1 payload carries
all scalar fields as strings, so scalar leaves are modelled as strings. -/
inductive JVal where
  | str : String → JVal
  | arr : List JVal → JVal
  | obj : List (String × JVal) → JVal
deriving Repr

/-- A JSON object, i.e. a Python dict with string keys. -/
abbrev Jobj := List (String × JVal)

/-- Python `k in d` / `d.get(k)`: the binding of the first occurrence of a
key (keys are unique in a parsed JSON object). -/
def Jobj.get? : Jobj → String → Option JVal
  | [], _ => none
  | p :: t, k => if p.1 = k then some p.2 else Jobj.get? t k

/-- Python `d.pop(k)`'s removal effect. -/
def Jobj.erase : Jobj → String → Jobj
  | [], _ => []
  | p :: t, k => if p.1 = k then Jobj.erase t k else p :: Jobj.erase t k

/-- Python `d[k] = v`. -/
def Jobj.set (o : Jobj) (k : String) (v : JVal) : Jobj :=
  (k, v) :: o.erase k

/-- Python `d[k]` on a dict: `KeyError` when absent. -/
def getItem (o : Jobj) (k : String) : Except PyErr JVal :=
  match o.get? k with
  | some v => .ok v
  | none => .error (.keyError k)

/-- Coerce a JSON value to a string scalar; passing a list or dict where a
string is consumed raises `TypeError` in Python. -/
def JVal.asStr : JVal → Except PyErr String
  | .str s => .ok s
  | _ => .error (.typeError "expected a string value")

/-- Coerce a JSON value to an object. -/
def JVal.asObj : JVal → Except PyErr Jobj
  | .obj o => .ok o
  | _ => .error (.typeError "expected an object value")

/-- Coerce a JSON value to an array. -/
def JVal.asArr : JVal → Except PyErr (List JVal)
  | .arr a => .ok a
  | _ => .error (.typeError "expected an array value")

/-- Python `x[0]` on a list: `IndexError` when empty. -/
def JVal.first : JVal → Except PyErr JVal
  | .arr (x :: _) => .ok x
  | .arr [] => .error (.indexError "list index out of range")
  | _ => .error (.typeError "value is not subscriptable by 0")

/-- `json[k]` consumed as a string. -/
def getStr (o : Jobj) (k : String) : Except PyErr String :=
  getItem o k >>= JVal.asStr

/-- `int(json[k])`. -/
def getInt (o : Jobj) (k : String) : Except PyErr Int :=
  getStr o k >>= pyInt

/-- `float(json[k])`. -/
def getFloat (o : Jobj) (k : String) : Except PyErr PyNum :=
  getStr o k >>= pyFloat

/-- `json[k][0]["value"]`, the access pattern for `weatherDesc`, `region`,
`areaName` and `country`. -/
def subValue (o : Jobj) (k : String) : Except PyErr String := do
  let v ← getItem o k
  let e ← v.first
  let eo ← e.asObj
  getStr eo "value"

/-- Modelled from the spec: `weather_util/constants.py` is not in the
repository snapshot.  `_Unit` carries the field-name suffixes and the
cm-to-unit divisor of a measurement system (spec §3 UnitSystem); the suffix
values are fixed by the key names the forecast model reads
(`temp_C`/`temp_F`, `precipMM`/`precipInches`, `pressure`/`pressureInches`,
`visibility`/`visibilityMiles`, `windspeedKmph`/`windspeedMiles`). -/
structure UnitS where
  temperature : String
  precipitation : String
  pressure : String
  visibility : String
  velocity : String
  cm_divisor : PyNum
deriving DecidableEq, Repr

/-- Modelled from the spec: the metric unit system. -/
def METRIC : UnitS := ⟨"C", "MM", "", "", "Kmph", ⟨1, 1⟩⟩

/-- Modelled from the spec: the imperial unit system; snowfall centimetres
are divided by 2.54 to give inches. -/
def IMPERIAL : UnitS := ⟨"F", "Inches", "Inches", "Miles", "Miles", ⟨127, 50⟩⟩

/-- `client.py` line 16: anything other than (case-insensitive) "imperial"
resolves to metric. -/
def resolveUnit (s : String) : UnitS :=
  if s.toLower = "imperial" then IMPERIAL else METRIC

/-- Modelled from the spec: `Locale` (enums.py is not in the snapshot) —
English is the default and reads `weatherDesc`; any other locale code reads
`lang_<code>`. -/
inductive Locale where
  | english
  | other (code : String)
deriving DecidableEq, Repr

/-- The language code of a locale, used in the request URL. -/
def Locale.code : Locale → String
  | .english => "en"
  | .other c => c

/-- Modelled from the spec: `WindDirection._new(label, degrees)` stores both
verbatim (enums.py is not in the snapshot). -/
structure WindDirection where
  value : String
  degrees : Int
deriving DecidableEq, Repr

/-- Modelled from the spec: the wind-direction glyph is chosen by mapping
degrees into one of 8 sectors of 45° centered on N/NE/E/SE/S/SW/W/NW, with a
defined fallback when the octant cannot be determined (degrees outside
[0,360) are passed through unvalidated, spec §4.2 and §9). -/
def WindDirection.emoji (w : WindDirection) : String :=
  if 0 ≤ w.degrees ∧ w.degrees < 360 then
    let s := ((w.degrees.toNat + 22) / 45) % 8
    if s = 0 then "↑" else if s = 1 then "↗" else if s = 2 then "→"
    else if s = 3 then "↘" else if s = 4 then "↓" else if s = 5 then "↙"
    else if s = 6 then "←" else "↖"
  else "?"

/-- Modelled from the spec: a sky-condition variant carries its code and a
display glyph (enums.py is not in the snapshot). -/
structure Kind where
  code : Int
  emoji : String
deriving DecidableEq, Repr

/-- Modelled from the spec: the closed sky-condition table, keyed by the
source's integer weather codes (the WMO-like code space, 113 =
clear/sunny), each group carrying its display glyph. -/
def kindTable : List (List Int × String) := [
  ([113], "☀️"),
  ([116], "⛅️"),
  ([119, 122], "☁️"),
  ([143, 248, 260], "🌫"),
  ([176, 263, 266, 293, 296], "🌦"),
  ([179, 362, 365, 374], "🌧"),
  ([182, 185, 281, 284, 311, 314, 317, 350, 377], "🌧"),
  ([200, 386, 389, 392], "⛈"),
  ([227, 320], "🌨"),
  ([230, 329, 332, 338], "❄️"),
  ([299, 302, 305, 308, 356, 359], "🌧"),
  ([323, 326, 335, 368, 371, 395], "🌨")]

/-- Modelled from the spec: `Kind` is a lookup by integer code in the fixed
table (113 = clear/sunny, §8 boundary); an unrecognized code fails with the
spec's `UnknownCodeError`, which Python's `Enum` constructor raises as a
`ValueError` — never a silent default. -/
def Kind.ofCode (c : Int) : Except PyErr Kind :=
  match kindTable.find? (fun p => p.1.contains c) with
  | some p => .ok ⟨c, p.2⟩
  | none => .error (.valueError (toString c ++ " is not a valid Kind"))

/-- Modelled from the spec: heat-index band names (§4.2). -/
inductive HeatBand where
  | safe
  | caution
  | extremeCaution
  | danger
  | extremeDanger
deriving DecidableEq, Repr

/-- Modelled from the spec: a heat index always carries the Celsius-keyed
band plus the unit-selected displayed value, carried through unconverted. -/
structure HeatIndex where
  band : HeatBand
  index : Int
deriving DecidableEq, Repr

/-- Modelled from the spec: `HeatIndex._new(celsius_index, displayed_value)`
bands on the Celsius index (≤26 Safe, 27-32 Caution, …, ≥54 Extreme Danger,
§4.2), independent of the requested unit. -/
def HeatIndex.new (celsius displayed : Int) : HeatIndex :=
  { band :=
      if celsius ≤ 26 then .safe
      else if celsius ≤ 32 then .caution
      else if celsius ≤ 39 then .extremeCaution
      else if celsius ≤ 53 then .danger
      else .extremeDanger,
    index := displayed }

/-- Modelled from the spec: the five UV-index bands (§4.2). -/
inductive UVBand where
  | low
  | moderate
  | high
  | veryHigh
  | extreme
deriving DecidableEq, Repr

/-- The display name of a UV band (spec §4.2 / glossary "Banding"). -/
def UVBand.name : UVBand → String
  | .low => "Low"
  | .moderate => "Moderate"
  | .high => "High"
  | .veryHigh => "Very High"
  | .extreme => "Extreme"

/-- Modelled from the spec: an `UltraViolet` value is its band. -/
structure UltraViolet where
  band : UVBand
deriving DecidableEq, Repr

/-- Modelled from the spec: `UltraViolet._new(index)` bands the raw UV
integer (0-2 Low, 3-5 Moderate, 6-7 High, 8-10 Very High, 11+ Extreme). -/
def UltraViolet.new (i : Int) : UltraViolet :=
  ⟨if i ≤ 2 then .low
   else if i ≤ 5 then .moderate
   else if i ≤ 7 then .high
   else if i ≤ 10 then .veryHigh
   else .extreme⟩

/-- Modelled from the spec: the serialized `"uv_index"` is a string naming
the band (spec §6 output shape gives `"uv_index": string`); this is the
`.index` the tool handler reads off the enum. -/
def UltraViolet.index (u : UltraViolet) : String := u.band.name

/-- Modelled from the spec: the closed set of 8 named lunar phases. -/
inductive Phase where
  | newMoon
  | waxingCrescent
  | firstQuarter
  | waxingGibbous
  | fullMoon
  | waningGibbous
  | lastQuarter
  | waningCrescent
deriving DecidableEq, Repr

/-- Modelled from the spec: `Phase` is an exact-string lookup against the 8
canonical phase names; an unmatched string fails with the spec's
`UnknownPhaseError` (a `ValueError` from Python's `Enum` constructor). -/
def Phase.ofRaw (s : String) : Except PyErr Phase :=
  if s = "New Moon" then .ok .newMoon
  else if s = "Waxing Crescent" then .ok .waxingCrescent
  else if s = "First Quarter" then .ok .firstQuarter
  else if s = "Waxing Gibbous" then .ok .waxingGibbous
  else if s = "Full Moon" then .ok .fullMoon
  else if s = "Waning Gibbous" then .ok .waningGibbous
  else if s = "Last Quarter" then .ok .lastQuarter
  else if s = "Waning Crescent" then .ok .waningCrescent
  else .error (.valueError (s ++ " is not a valid Phase"))

/-- Modelled from the spec: `LATLON_REGEX` lives in the missing
`constants.py`; the spec (§3 Forecast) says the coordinate pair is
"preferentially parsed from a request-echo field matching a specific
latitude/longitude pattern".  The wttr request echo has the form
`Lat <lat> and Lon <lon>`; the two capture groups are returned. -/
def latlonMatch (q : String) : Option (String × String) :=
  let cs := q.toList
  if ['L', 'a', 't', ' '].isPrefixOf cs then
    match findSplit " and Lon ".toList (cs.drop 4) with
    | some (a, b) =>
      if a ≠ [] ∧ b ≠ [] then some (String.mk a, String.mk b) else none
    | none => none
  else none

/-- The shared fields of a "current conditions" snapshot
(`BaseForecast.__slots__`, `forecast.py` lines 7-53). -/
structure BaseForecast where
  ultraviolet : UltraViolet
  humidity : Int
  wind_direction : WindDirection
  kind : Kind
  feels_like : Int
  temperature : Int
  precipitation : PyNum
  pressure : PyNum
  visibility : Int
  wind_speed : Int
  description : String
deriving DecidableEq, Repr

/-- The description lookup in `BaseForecast.__init__` (`forecast.py` lines
56-60): `weatherDesc` for English, `lang_<locale>` otherwise, first array
element's `value`. -/
def getDescription (j : Jobj) (l : Locale) : Except PyErr String :=
  match l with
  | .english => subValue j "weatherDesc"
  | .other c => subValue j ("lang_" ++ c)

/-- `BaseForecast.__init__` (`forecast.py` lines 55-74), in the source's
evaluation order: the description lookup runs first, then each field is read
from its (unit-suffixed) key and coerced. -/
def buildBase (j : Jobj) (u : UnitS) (l : Locale) : Except PyErr BaseForecast := do
  let description ← getDescription j l
  let uvRaw ← getInt j "uvIndex"
  let humidity ← getInt j "humidity"
  let wdLabel ← getStr j "winddir16Point"
  let wdDeg ← getInt j "winddirDegree"
  let kindCode ← getInt j "weatherCode"
  let kind ← Kind.ofCode kindCode
  let feels ← getInt j ("FeelsLike" ++ u.temperature)
  let temp ← getInt j ("temp_" ++ u.temperature)
  let precip ← getFloat j ("precip" ++ u.precipitation)
  let pressure ← getFloat j ("pressure" ++ u.pressure)
  let vis ← getInt j ("visibility" ++ u.visibility)
  let wind ← getInt j ("windspeed" ++ u.velocity)
  pure {
    ultraviolet := UltraViolet.new uvRaw,
    humidity := humidity,
    wind_direction := ⟨wdLabel, wdDeg⟩,
    kind := kind,
    feels_like := feels,
    temperature := temp,
    precipitation := precip,
    pressure := pressure,
    visibility := vis,
    wind_speed := wind,
    description := pyStripStr description }

/-- An hourly forecast (`HourlyForecast.__slots__`); the shared fields are
embedded by value. -/
structure HourlyForecast where
  base : BaseForecast
  chances_of_fog : Int
  chances_of_frost : Int
  chances_of_high_temperature : Int
  chances_of_overcast : Int
  chances_of_rain : Int
  chances_of_remaining_dry : Int
  chances_of_snow : Int
  chances_of_sunshine : Int
  chances_of_thunder : Int
  chances_of_windy : Int
  cloud_cover : Int
  time : TimeOfDay
  dew_point : Int
  heat_index : HeatIndex
  wind_chill : Int
  wind_gust : Int
deriving DecidableEq, Repr

/-- `if "temp_C" not in json: json["temp_C"] = json.pop("tempC")`
(`forecast.py` lines 148-149): when `temp_C` is absent, `tempC` is popped
(KeyError if that is absent too) and re-inserted as `temp_C`. -/
def normalizeStepC (j : Jobj) : Except PyErr Jobj :=
  if (Jobj.get? j "temp_C").isSome then .ok j
  else
    match Jobj.get? j "tempC" with
    | some v => .ok ((j.erase "tempC").set "temp_C" v)
    | none => .error (.keyError "tempC")

/-- `if "temp_F" not in json: json["temp_F"] = json.pop("tempF")`
(`forecast.py` lines 150-151). -/
def normalizeStepF (j : Jobj) : Except PyErr Jobj :=
  if (Jobj.get? j "temp_F").isSome then .ok j
  else
    match Jobj.get? j "tempF" with
    | some v => .ok ((j.erase "tempF").set "temp_F" v)
    | none => .error (.keyError "tempF")

/-- The in-place key normalization at the top of `HourlyForecast.__init__`
(`forecast.py` lines 148-151).  This is the full mutation the construction
performs on the caller's mapping. -/
def normalizeHourly (j : Jobj) : Except PyErr Jobj :=
  normalizeStepC j >>= normalizeStepF

/-- The field reads of `HourlyForecast.__init__` after the key
normalization, in the source's evaluation order: `HeatIndexC` and `time`,
the ten chance fields, cloud cover, the parsed clock time, dew point, heat
index, wind chill, wind gust, then the shared `BaseForecast` fields (the
`super().__init__` call comes last). -/
def hourlyFields (j : Jobj) (u : UnitS) (l : Locale) : Except PyErr HourlyForecast := do
  let celsiusIndex ← getInt j "HeatIndexC"
  let t ← getStr j "time"
  let fog ← getInt j "chanceoffog"
  let frost ← getInt j "chanceoffrost"
  let hightemp ← getInt j "chanceofhightemp"
  let overcast ← getInt j "chanceofovercast"
  let rain ← getInt j "chanceofrain"
  let remdry ← getInt j "chanceofremdry"
  let snow ← getInt j "chanceofsnow"
  let sunshine ← getInt j "chanceofsunshine"
  let thunder ← getInt j "chanceofthunder"
  let windy ← getInt j "chanceofwindy"
  let cloud ← getInt j "cloudcover"
  let time ← parseHHMM t
  let dew ← getInt j ("DewPoint" ++ u.temperature)
  let hiDisp ← getInt j ("HeatIndex" ++ u.temperature)
  let chill ← getInt j ("WindChill" ++ u.temperature)
  let gust ← getInt j ("WindGust" ++ u.velocity)
  let base ← buildBase j u l
  pure {
    base := base,
    chances_of_fog := fog,
    chances_of_frost := frost,
    chances_of_high_temperature := hightemp,
    chances_of_overcast := overcast,
    chances_of_rain := rain,
    chances_of_remaining_dry := remdry,
    chances_of_snow := snow,
    chances_of_sunshine := sunshine,
    chances_of_thunder := thunder,
    chances_of_windy := windy,
    cloud_cover := cloud,
    time := time,
    dew_point := dew,
    heat_index := HeatIndex.new celsiusIndex hiDisp,
    wind_chill := chill,
    wind_gust := gust }

/-- `HourlyForecast.__init__` (`forecast.py` lines 146-176): the in-place
key normalization on the caller's mapping, then every field read from the
mutated mapping. -/
def buildHourly (j : Jobj) (u : UnitS) (l : Locale) : Except PyErr HourlyForecast := do
  let jn ← normalizeHourly j
  hourlyFields jn u l

/-- A daily forecast (`DailyForecast.__slots__`, `forecast.py` 182-236). -/
structure DailyForecast where
  moon_illumination : Int
  moon_phase : Phase
  moonrise : Option TimeOfDay
  moonset : Option TimeOfDay
  sunrise : Option TimeOfDay
  sunset : Option TimeOfDay
  date : DateD
  sunlight : PyNum
  lowest_temperature : Int
  highest_temperature : Int
  temperature : Int
  snowfall : PyNum
  hourly_forecasts : List HourlyForecast
deriving DecidableEq, Repr

/-- The list comprehension `[HourlyForecast(elem, …) for elem in
json["hourly"]]`: each element must be an object, in order. -/
def buildHourlyList : List JVal → UnitS → Locale → Except PyErr (List HourlyForecast)
  | [], _, _ => .ok []
  | v :: rest, u, l => do
    let o ← v.asObj
    let h ← buildHourly o u l
    let hs ← buildHourlyList rest u l
    pure (h :: hs)

/-- `DailyForecast.__init__` (`forecast.py` lines 238-255), in the source's
evaluation order.  The four astronomy times go through the total
`__parse_time` (`parse12`), so an unmatched string yields `none`, never an
error; snowfall divides `totalSnow_cm` by the unit's divisor. -/
def buildDaily (j : Jobj) (u : UnitS) (l : Locale) : Except PyErr DailyForecast := do
  let astroV ← getItem j "astronomy"
  let a0 ← astroV.first
  let astronomy ← a0.asObj
  let illum ← getInt astronomy "moon_illumination"
  let phaseS ← getStr astronomy "moon_phase"
  let phase ← Phase.ofRaw phaseS
  let mrS ← getStr astronomy "moonrise"
  let msS ← getStr astronomy "moonset"
  let srS ← getStr astronomy "sunrise"
  let ssS ← getStr astronomy "sunset"
  let dateS ← getStr j "date"
  let date ← parseDateYMD dateS
  let sunlight ← getFloat j "sunHour"
  let lo ← getInt j ("mintemp" ++ u.temperature)
  let hi ← getInt j ("maxtemp" ++ u.temperature)
  let avg ← getInt j ("avgtemp" ++ u.temperature)
  let snowCm ← getFloat j "totalSnow_cm"
  let hourlyV ← getItem j "hourly"
  let hlist ← hourlyV.asArr
  let hours ← buildHourlyList hlist u l
  pure {
    moon_illumination := illum,
    moon_phase := phase,
    moonrise := parse12 mrS,
    moonset := parse12 msS,
    sunrise := parse12 srS,
    sunset := parse12 ssS,
    date := date,
    sunlight := sunlight,
    lowest_temperature := lo,
    highest_temperature := hi,
    temperature := avg,
    snowfall := PyNum.div snowCm u.cm_divisor,
    hourly_forecasts := hours }

/-- The root forecast (`Forecast.__slots__`, `forecast.py` 274-306); the
shared fields are embedded by value. -/
structure Forecast where
  base : BaseForecast
  local_population : Int
  region : String
  location : String
  country : String
  datetime : DateTimeD
  coordinates : PyNum × PyNum
  daily_forecasts : List DailyForecast
deriving DecidableEq, Repr

/-- `json["current_condition"][0]` consumed as an object. -/
def currentObj (j : Jobj) : Except PyErr Jobj := do
  let v ← getItem j "current_condition"
  let e ← v.first
  e.asObj

/-- `json["nearest_area"][0]` consumed as an object. -/
def nearestObj (j : Jobj) : Except PyErr Jobj := do
  let v ← getItem j "nearest_area"
  let e ← v.first
  e.asObj

/-- The scan `next(filter(lambda x: x["type"] == "LatLon", json["request"]))`
inside the coordinate try-block.  Any exception raised during the scan (a
missing `type` key, a non-subscriptable entry) aborts to the fallback, which
the bare `except:` models as `none`; an entry whose `type` is a non-string
compares unequal and is skipped. -/
def latLonScan : List JVal → Option Jobj
  | [] => none
  | v :: rest =>
    match v with
    | .obj o =>
      match Jobj.get? o "type" with
      | some (.str t) => if t = "LatLon" then some o else latLonScan rest
      | some _ => latLonScan rest
      | none => none
    | _ => none

/-- The whole coordinate try-block of `Forecast.__init__` (`forecast.py`
lines 318-323): find the `LatLon` request entry, regex-match its `query`,
float both captures.  Any failure (caught by the bare `except:`) yields
`none`. -/
def latLonAttempt (j : Jobj) : Option (PyNum × PyNum) := do
  let reqV ← j.get? "request"
  let reqs ←
    match reqV with
    | .arr a => some a
    | _ => none
  let e ← latLonScan reqs
  let q ←
    match e.get? "query" with
    | some (.str s) => some s
    | _ => none
  let (aS, bS) ← latlonMatch q
  let la ← (pyFloat aS).toOption
  let lo ← (pyFloat bS).toOption
  pure (la, lo)

/-- The coordinate pair of `Forecast.__init__`: the request-echo parse first,
falling back to `(float(nearest["latitude"]), float(nearest["longitude"]))`
on any exception (lines 318-324); errors raised by the fallback itself
propagate. -/
def coordsOf (j : Jobj) (nearest : Jobj) : Except PyErr (PyNum × PyNum) :=
  match latLonAttempt j with
  | some c => .ok c
  | none => do
    let la ← getFloat nearest "latitude"
    let lo ← getFloat nearest "longitude"
    pure (la, lo)

/-- The list comprehension `[DailyForecast(elem, …) for elem in
json["weather"]]`, in order. -/
def buildDailyList : List JVal → UnitS → Locale → Except PyErr (List DailyForecast)
  | [], _, _ => .ok []
  | v :: rest, u, l => do
    let o ← v.asObj
    let d ← buildDaily o u l
    let ds ← buildDailyList rest u l
    pure (d :: ds)

/-- `Forecast.__init__` (`forecast.py` lines 308-330), in the source's
evaluation order: population, region, location, country, observation
date-time, coordinates, the daily list, and finally the shared
`BaseForecast` fields from `current_condition[0]`. -/
def buildForecast (j : Jobj) (u : UnitS) (l : Locale) : Except PyErr Forecast := do
  let current ← currentObj j
  let nearest ← nearestObj j
  let pop ← getInt nearest "population"
  let region ← subValue nearest "region"
  let location ← subValue nearest "areaName"
  let country ← subValue nearest "country"
  let obsS ← getStr current "localObsDateTime"
  let dt ← parseObsDateTime obsS
  let coords ← coordsOf j nearest
  let wV ← getItem j "weather"
  let ws ← wV.asArr
  let dailies ← buildDailyList ws u l
  let base ← buildBase current u l
  pure {
    base := base,
    local_population := pop,
    region := region,
    location := location,
    country := country,
    datetime := dt,
    coordinates := coords,
    daily_forecasts := dailies }

/-- One `{date, high_temperature, low_temperature}` entry of the serialized
response (`weather_server.py` lines 69-75). -/
structure ForecastEntry where
  date : String
  high_temperature : Int
  low_temperature : Int
deriving DecidableEq, Repr

/-- The flat `"currently"` response map (`weather_server.py` lines 77-90). -/
structure WeatherData where
  current_temperature : Int
  sky : String
  feels_like : Int
  humidity : Int
  wind_speed : Int
  wind_direction : String
  visibility : Int
  uv_index : String
  description : String
  forecasts : List ForecastEntry
deriving DecidableEq, Repr

/-- The serialization of a `Forecast` into the response map
(`weather_server.py` lines 69-90): the daily list is mapped in order, the
wind direction is the label concatenated with its glyph, and `uv_index` is
`weather.ultraviolet.index`. -/
def serializeWeather (w : Forecast) : WeatherData :=
  { current_temperature := w.base.temperature,
    sky := w.base.kind.emoji,
    feels_like := w.base.feels_like,
    humidity := w.base.humidity,
    wind_speed := w.base.wind_speed,
    wind_direction := w.base.wind_direction.value ++ w.base.wind_direction.emoji,
    visibility := w.base.visibility,
    uv_index := w.base.ultraviolet.index,
    description := w.base.description,
    forecasts := w.daily_forecasts.map
      (fun d => ⟨strftimeYMD d.date, d.highest_temperature, d.lowest_temperature⟩) }

/-- A tool output content item; the handler only ever produces a text item
holding the JSON-rendered `WeatherData`. -/
inductive ToolContent where
  | text : WeatherData → ToolContent
deriving DecidableEq, Repr

/-- `isinstance(arguments, dict) and "location_name" in arguments`
(`weather_server.py` line 59). -/
def validArguments : JVal → Bool
  | .obj o => (Jobj.get? o "location_name").isSome
  | _ => false

/-- `call_tool` (`weather_server.py` lines 52-102).  The awaited
`Weather(locale="en", unit="imperial").get_forecast(location)` result is
passed in as `fetched` (the network call is the only I/O).  An unknown tool
name or invalid arguments raise a `ValueError` before the try-block; any
error inside the try-block — the fetch and the serialization — is re-raised
as `RuntimeError("Weather API error: " + str(e))`. -/
def callTool (name : String) (arguments : JVal) (fetched : Except PyErr Forecast) :
    Except PyErr (List ToolContent) :=
  if name ≠ "get_current_weather" then
    .error (.valueError ("Unknown tool: " ++ name))
  else if ¬ validArguments arguments then
    .error (.valueError "Invalid weather arguments")
  else
    match fetched with
    | .error e => .error (.runtimeError ("Weather API error: " ++ e.message))
    | .ok w => .ok [.text (serializeWeather w)]

/-- What the mocked HTTP layer answers one GET with: a status/body response,
or a network-level `httpx.RequestError`.  An empty response text is `none`;
a non-empty JSON body is `some` of its parsed document (bodies that are not
JSON objects are outside this model's scope). -/
inductive HttpEvent where
  | response (status : Nat) (body : Option Jobj)
  | netError (msg : String)

/-- `Weather._format_content` (`client.py` lines 60-71): decode and
`json.loads` the body, then hand it to the forecast model; all errors are
logged and re-raised unchanged. -/
def formatContent (body : Option Jobj) (u : UnitS) (l : Locale) : Except PyErr Forecast :=
  match body with
  | none => .error .jsonDecodeError
  | some o => buildForecast o u l

/-- The observable behaviour of one `_fetch_url` call: how many attempts were
made, the argument of each `asyncio.sleep` between attempts (in order), and
the value returned or error raised. -/
structure FetchTrace where
  attempts : Nat
  sleeps : List Nat
  result : Except PyErr Forecast
deriving Repr

/-- One turn of the retry loop in `Weather._fetch_url` (`client.py` lines
29-58), driven by `responder` (the answer to attempt number `attempt`,
0-based) with `remaining` loop iterations left.  A 404 with a non-empty body
returns the parsed body at once; otherwise `raise_for_status` raises for any
non-2xx status, which is re-raised on the last attempt and otherwise retried
after `asyncio.sleep(1 * (attempt + 1))`; a network error is raised
immediately; a 2xx response is parsed and returned. -/
def fetchGo (responder : Nat → HttpEvent) (u : UnitS) (l : Locale) :
    Nat → Nat → FetchTrace
  | _, 0 => ⟨0, [], .error (.runtimeError "retry loop exhausted")⟩
  | attempt, r + 1 =>
    match responder attempt with
    | .netError m => ⟨1, [], .error (.requestError m)⟩
    | .response status body =>
      if status = 404 ∧ body.isSome then ⟨1, [], formatContent body u l⟩
      else if 200 ≤ status ∧ status < 300 then ⟨1, [], formatContent body u l⟩
      else if r = 0 then ⟨1, [], .error (.httpStatusError status)⟩
      else
        let t := fetchGo responder u l (attempt + 1) r
        ⟨t.attempts + 1, (1 * (attempt + 1)) :: t.sleeps, t.result⟩

/-- `Weather._fetch_url` with its default `max_retries = 3`. -/
def fetchUrl (responder : Nat → HttpEvent) (u : UnitS) (l : Locale) : FetchTrace :=
  fetchGo responder u l 0 3

/-- An HTTP-status failure outside the 404-with-non-empty-body special case:
the responses the claim's retry policy is about (4xx/5xx). -/
def httpFailure (status : Nat) (body : Option Jobj) : Prop :=
  400 ≤ status ∧ ¬(status = 404 ∧ body.isSome)

/-- Shorthand for a string scalar of the sample payload. -/
def js (s : String) : JVal := JVal.str s

/-- A fixed sample hourly record, shaped like one entry of a wttr j1
`weather[].hourly[]` array (note `tempC`/`tempF`, the casing the
normalization step renames). -/
def sampleHour : Jobj := [
  ("time", js "900"),
  ("tempC", js "21"),
  ("tempF", js "70"),
  ("weatherDesc", JVal.arr [JVal.obj [("value", js " Sunny ")]]),
  ("uvIndex", js "4"),
  ("humidity", js "50"),
  ("winddir16Point", js "NW"),
  ("winddirDegree", js "315"),
  ("weatherCode", js "113"),
  ("FeelsLikeC", js "22"),
  ("FeelsLikeF", js "72"),
  ("precipMM", js "0.0"),
  ("precipInches", js "0.0"),
  ("pressure", js "1015"),
  ("pressureInches", js "30"),
  ("visibility", js "16"),
  ("visibilityMiles", js "10"),
  ("windspeedKmph", js "13"),
  ("windspeedMiles", js "8"),
  ("HeatIndexC", js "24"),
  ("HeatIndexF", js "75"),
  ("DewPointC", js "13"),
  ("DewPointF", js "55"),
  ("WindChillC", js "20"),
  ("WindChillF", js "68"),
  ("WindGustKmph", js "19"),
  ("WindGustMiles", js "12"),
  ("chanceoffog", js "0"),
  ("chanceoffrost", js "0"),
  ("chanceofhightemp", js "0"),
  ("chanceofovercast", js "10"),
  ("chanceofrain", js "0"),
  ("chanceofremdry", js "90"),
  ("chanceofsnow", js "0"),
  ("chanceofsunshine", js "80"),
  ("chanceofthunder", js "0"),
  ("chanceofwindy", js "0"),
  ("cloudcover", js "25")]

/-- A fixed sample day, first of two. -/
def sampleDay1 : Jobj := [
  ("astronomy", JVal.arr [JVal.obj [
    ("moon_illumination", js "43"),
    ("moon_phase", js "Waxing Crescent"),
    ("moonrise", js "5:10 AM"),
    ("moonset", js "8:45 PM"),
    ("sunrise", js "6:01 AM"),
    ("sunset", js "9:30 PM")]]),
  ("date", js "2024-07-15"),
  ("sunHour", js "14.5"),
  ("mintempC", js "15"),
  ("mintempF", js "59"),
  ("maxtempC", js "27"),
  ("maxtempF", js "81"),
  ("avgtempC", js "21"),
  ("avgtempF", js "70"),
  ("totalSnow_cm", js "0.0"),
  ("hourly", JVal.arr [JVal.obj sampleHour])]

/-- A fixed sample day, second of two; its moonrise is the polar-night
sentinel string the upstream service emits. -/
def sampleDay2 : Jobj := [
  ("astronomy", JVal.arr [JVal.obj [
    ("moon_illumination", js "50"),
    ("moon_phase", js "First Quarter"),
    ("moonrise", js "No moonrise"),
    ("moonset", js "9:12 PM"),
    ("sunrise", js "6:02 AM"),
    ("sunset", js "9:29 PM")]]),
  ("date", js "2024-07-16"),
  ("sunHour", js "13.9"),
  ("mintempC", js "16"),
  ("mintempF", js "60"),
  ("maxtempC", js "28"),
  ("maxtempF", js "83"),
  ("avgtempC", js "22"),
  ("avgtempF", js "71"),
  ("totalSnow_cm", js "0.0"),
  ("hourly", JVal.arr [JVal.obj sampleHour])]

/-- A fixed sample `current_condition[0]` record. -/
def sampleCurrent : Jobj := [
  ("localObsDateTime", js "2024-07-15 10:30 AM"),
  ("weatherDesc", JVal.arr [JVal.obj [("value", js "Partly cloudy")]]),
  ("uvIndex", js "5"),
  ("humidity", js "40"),
  ("winddir16Point", js "N"),
  ("winddirDegree", js "10"),
  ("weatherCode", js "116"),
  ("FeelsLikeC", js "25"),
  ("FeelsLikeF", js "78"),
  ("temp_C", js "24"),
  ("temp_F", js "76"),
  ("precipMM", js "0.1"),
  ("precipInches", js "0.0"),
  ("pressure", js "1012"),
  ("pressureInches", js "30"),
  ("visibility", js "16"),
  ("visibilityMiles", js "10"),
  ("windspeedKmph", js "11"),
  ("windspeedMiles", js "7")]

/-- A fixed sample `nearest_area[0]` record. -/
def sampleNearest : Jobj := [
  ("population", js "3645000"),
  ("region", JVal.arr [JVal.obj [("value", js "Berlin")]]),
  ("areaName", JVal.arr [JVal.obj [("value", js "Berlin")]]),
  ("country", JVal.arr [JVal.obj [("value", js "Germany")]]),
  ("latitude", js "52.517"),
  ("longitude", js "13.400")]

/-- The fixed sample payload: two `weather[]` entries, a request echo
without a `LatLon` entry. -/
def sampleBody : Jobj := [
  ("current_condition", JVal.arr [JVal.obj sampleCurrent]),
  ("nearest_area", JVal.arr [JVal.obj sampleNearest]),
  ("request", JVal.arr [JVal.obj [("type", js "City"), ("query", js "Berlin")]]),
  ("weather", JVal.arr [JVal.obj sampleDay1, JVal.obj sampleDay2])]

/-- The sample payload with a `LatLon` request echo, for the preferential
coordinate path. -/
def sampleBodyLatLon : Jobj := [
  ("current_condition", JVal.arr [JVal.obj sampleCurrent]),
  ("nearest_area", JVal.arr [JVal.obj sampleNearest]),
  ("request", JVal.arr [JVal.obj [("type", js "LatLon"), ("query", js "Lat 52.52 and Lon 13.40")]]),
  ("weather", JVal.arr [JVal.obj sampleDay1, JVal.obj sampleDay2])]

/-- Whether an error value is the handler's `RuntimeError` wrapper (the
spec's `ToolExecutionError`). -/
def isRuntimeError : PyErr → Bool
  | .runtimeError _ => true
  | _ => false

/-- The payload key the description is read from (`weatherDesc` for English,
`lang_<code>` otherwise). -/
def descKey (l : Locale) : String :=
  match l with
  | .english => "weatherDesc"
  | .other c => "lang_" ++ c

/-- The keys `BaseForecast.__init__` requires of its sub-object under unit
system `u` and locale `l`. -/
def requiredBaseKeys (u : UnitS) (l : Locale) : List String :=
  [descKey l, "uvIndex", "humidity", "winddir16Point", "winddirDegree",
   "weatherCode", "FeelsLike" ++ u.temperature, "temp_" ++ u.temperature,
   "precip" ++ u.precipitation, "pressure" ++ u.pressure,
   "visibility" ++ u.visibility, "windspeed" ++ u.velocity]

/-- The required keys whose values `BaseForecast.__init__` passes through
`int()`. -/
def requiredIntKeys (u : UnitS) : List String :=
  ["uvIndex", "humidity", "winddirDegree", "weatherCode",
   "FeelsLike" ++ u.temperature, "temp_" ++ u.temperature,
   "visibility" ++ u.visibility, "windspeed" ++ u.velocity]

/-- The required keys whose values `BaseForecast.__init__` passes through
`float()`. -/
def requiredFloatKeys (u : UnitS) : List String :=
  ["precip" ++ u.precipitation, "pressure" ++ u.pressure]

/-- Field-by-field provenance of a built `BaseForecast`: every field is the
coercion of the corresponding payload string, never a default. -/
def baseFromPayload (j : Jobj) (u : UnitS) (l : Locale) (b : BaseForecast) : Prop :=
  (∃ d, getDescription j l = .ok d ∧ b.description = pyStripStr d)
  ∧ (∃ s n, Jobj.get? j "uvIndex" = some (.str s) ∧ pyInt s = .ok n
      ∧ b.ultraviolet = UltraViolet.new n)
  ∧ (∃ s, Jobj.get? j "humidity" = some (.str s) ∧ pyInt s = .ok b.humidity)
  ∧ (∃ lb s, Jobj.get? j "winddir16Point" = some (.str lb)
      ∧ Jobj.get? j "winddirDegree" = some (.str s)
      ∧ pyInt s = .ok b.wind_direction.degrees ∧ b.wind_direction.value = lb)
  ∧ (∃ s n, Jobj.get? j "weatherCode" = some (.str s) ∧ pyInt s = .ok n
      ∧ Kind.ofCode n = .ok b.kind)
  ∧ (∃ s, Jobj.get? j ("FeelsLike" ++ u.temperature) = some (.str s) ∧ pyInt s = .ok b.feels_like)
  ∧ (∃ s, Jobj.get? j ("temp_" ++ u.temperature) = some (.str s) ∧ pyInt s = .ok b.temperature)
  ∧ (∃ s, Jobj.get? j ("precip" ++ u.precipitation) = some (.str s) ∧ pyFloat s = .ok b.precipitation)
  ∧ (∃ s, Jobj.get? j ("pressure" ++ u.pressure) = some (.str s) ∧ pyFloat s = .ok b.pressure)
  ∧ (∃ s, Jobj.get? j ("visibility" ++ u.visibility) = some (.str s) ∧ pyInt s = .ok b.visibility)
  ∧ (∃ s, Jobj.get? j ("windspeed" ++ u.velocity) = some (.str s) ∧ pyInt s = .ok b.wind_speed)

/-- Replace the string of astronomy field `k` in a daily record's
`astronomy[0]` object, leaving everything else in place. -/
def setAstroField (j : Jobj) (k : String) (s : String) : Jobj :=
  match Jobj.get? j "astronomy" with
  | some (.arr (a :: rest)) =>
    match a with
    | .obj o => j.set "astronomy" (.arr (JVal.obj (Jobj.set o k (js s)) :: rest))
    | _ => j
  | _ => j

/-- Replace one of the four optional astronomy times of a built
`DailyForecast`. -/
def setDailyTime (d : DailyForecast) (k : String) (v : Option TimeOfDay) : DailyForecast :=
  if k = "moonrise" then { d with moonrise := v }
  else if k = "moonset" then { d with moonset := v }
  else if k = "sunrise" then { d with sunrise := v }
  else if k = "sunset" then { d with sunset := v }
  else d

/-- Whether a request-echo entry is of type `LatLon`. -/
def isLatLonEntry : JVal → Bool
  | .obj o =>
    match Jobj.get? o "type" with
    | some (.str t) => t = "LatLon"
    | _ => false
  | _ => false

/-- A mock responder answering every attempt with HTTP 500 and an empty
body. -/
def respAll500 : Nat → HttpEvent := fun _ => .response 500 none

/-- A mock responder answering two HTTP 500s followed by a 200 carrying the
sample payload. -/
def respRetrySample : Nat → HttpEvent :=
  fun n => if n < 2 then .response 500 none else .response 200 (some sampleBody)

/-- A mock responder answering HTTP 404 with the (non-empty) sample
payload. -/
def resp404Sample : Nat → HttpEvent := fun _ => .response 404 (some sampleBody)

/-- A placeholder forecast used only to totalize sample extractors. -/
def fallbackForecast : Forecast :=
  { base := { ultraviolet := ⟨.low⟩, humidity := 0, wind_direction := ⟨"", 0⟩,
              kind := ⟨113, ""⟩, feels_like := 0, temperature := 0,
              precipitation := ⟨0, 1⟩, pressure := ⟨0, 1⟩, visibility := 0,
              wind_speed := 0, description := "" },
    local_population := 0, region := "", location := "", country := "",
    datetime := ⟨⟨2000, 1, 1⟩, ⟨0, 0⟩⟩, coordinates := (⟨0, 1⟩, ⟨0, 1⟩),
    daily_forecasts := [] }

/-- A placeholder daily forecast used only to totalize sample extractors. -/
def fallbackDaily : DailyForecast :=
  { moon_illumination := 0, moon_phase := .newMoon, moonrise := none,
    moonset := none, sunrise := none, sunset := none, date := ⟨2000, 1, 1⟩,
    sunlight := ⟨0, 1⟩, lowest_temperature := 0, highest_temperature := 0,
    temperature := 0, snowfall := ⟨0, 1⟩, hourly_forecasts := [] }

/-- The forecast the sample payload builds to (with the imperial/English
selection the tool handler hardcodes). -/
def sampleForecast : Forecast :=
  match buildForecast sampleBody IMPERIAL Locale.english with
  | .ok f => f
  | .error _ => fallbackForecast

/-- The daily forecast the first sample day builds to. -/
def sampleDaily1 : DailyForecast :=
  match buildDaily sampleDay1 IMPERIAL Locale.english with
  | .ok d => d
  | .error _ => fallbackDaily

/-- The sample hourly record after the construction's key normalization. -/
def sampleHourNorm : Jobj :=
  match normalizeHourly sampleHour with
  | .ok o => o
  | .error _ => []

/-- The tool-call output on the sample payload. -/
def sampleOutput : List ToolContent :=
  match callTool "get_current_weather" (JVal.obj [("location_name", js "Berlin")])
      (buildForecast sampleBody IMPERIAL Locale.english) with
  | .ok o => o
  | .error _ => []

/-- A computation that can only fail with a data-shape error (the
`MalformedPayloadError` family), never a transport error. -/
def onlyStructured {α : Type} (x : Except PyErr α) : Prop :=
  ∀ e, x = Except.error e → structuredErr e

theorem bind_ok {α β : Type} {x : Except PyErr α} {f : α → Except PyErr β} {b : β}
    (h : x >>= f = Except.ok b) : ∃ a, x = Except.ok a ∧ f a = Except.ok b := by
  cases x with
  | error e => exact absurd h (by simp [Bind.bind, Except.bind])
  | ok a => exact ⟨a, rfl, h⟩

theorem bind_err {α β : Type} {x : Except PyErr α} {f : α → Except PyErr β} {e : PyErr}
    (h : x >>= f = Except.error e) :
    x = Except.error e ∨ ∃ a, x = Except.ok a ∧ f a = Except.error e := by
  cases x with
  | error e2 =>
    left
    have h2 : e2 = e := by simpa [Bind.bind, Except.bind] using h
    rw [h2]
  | ok a => exact Or.inr ⟨a, rfl, h⟩

theorem pure_ok {α : Type} {a b : α}
    (h : (pure a : Except PyErr α) = Except.ok b) : a = b :=
  Except.ok.inj h

theorem get?_erase_self (o : Jobj) (k : String) : Jobj.get? (o.erase k) k = none := by
  induction o with
  | nil => rfl
  | cons p t ih =>
    by_cases hk : p.1 = k
    · simpa [Jobj.erase, hk] using ih
    · simpa [Jobj.erase, Jobj.get?, hk] using ih

theorem get?_erase_ne (o : Jobj) (k k' : String) (h : k' ≠ k) :
    Jobj.get? (o.erase k) k' = Jobj.get? o k' := by
  induction o with
  | nil => rfl
  | cons p t ih =>
    by_cases hk : p.1 = k
    · have hp : ¬ p.1 = k' := fun hh => h (hh.symm.trans hk)
      simp only [Jobj.erase, Jobj.get?, if_pos hk, if_neg hp]
      exact ih
    · simp only [Jobj.erase, Jobj.get?, if_neg hk]
      by_cases hp : p.1 = k'
      · simp only [Jobj.get?, if_pos hp]
      · simp only [Jobj.get?, if_neg hp]
        exact ih

theorem get?_set_self (o : Jobj) (k : String) (v : JVal) :
    Jobj.get? (o.set k v) k = some v := by
  simp [Jobj.set, Jobj.get?]

theorem get?_set_ne (o : Jobj) (k k' : String) (v : JVal) (h : k' ≠ k) :
    Jobj.get? (o.set k v) k' = Jobj.get? o k' := by
  have hne : ¬ (k, v).1 = k' := fun hh => h hh.symm
  calc Jobj.get? (o.set k v) k'
      = Jobj.get? (o.erase k) k' := by simp only [Jobj.set, Jobj.get?, if_neg hne]
    _ = Jobj.get? o k' := get?_erase_ne o k k' h

theorem getItem_ok {o : Jobj} {k : String} {v : JVal}
    (h : getItem o k = Except.ok v) : Jobj.get? o k = some v := by
  unfold getItem at h
  cases hh : Jobj.get? o k with
  | none => rw [hh] at h; exact Except.noConfusion h
  | some w =>
    rw [hh] at h
    injection h with h2
    exact congrArg some h2

theorem asStr_ok {v : JVal} {s : String}
    (h : JVal.asStr v = Except.ok s) : v = JVal.str s := by
  cases v with
  | str t => injection h with h2; rw [h2]
  | arr a => exact Except.noConfusion h
  | obj o => exact Except.noConfusion h

theorem asObj_ok {v : JVal} {o : Jobj}
    (h : JVal.asObj v = Except.ok o) : v = JVal.obj o := by
  cases v with
  | str t => exact Except.noConfusion h
  | arr a => exact Except.noConfusion h
  | obj o2 => injection h with h2; rw [h2]

theorem asArr_ok {v : JVal} {a : List JVal}
    (h : JVal.asArr v = Except.ok a) : v = JVal.arr a := by
  cases v with
  | str t => exact Except.noConfusion h
  | arr a2 => injection h with h2; rw [h2]
  | obj o => exact Except.noConfusion h

theorem first_ok {v : JVal} {x : JVal}
    (h : JVal.first v = Except.ok x) : ∃ rest, v = JVal.arr (x :: rest) := by
  cases v with
  | str t => exact Except.noConfusion h
  | obj o => exact Except.noConfusion h
  | arr a =>
    cases a with
    | nil => exact Except.noConfusion h
    | cons y t => injection h with h2; exact ⟨t, by rw [h2]⟩

theorem getStr_ok {o : Jobj} {k : String} {s : String}
    (h : getStr o k = Except.ok s) : Jobj.get? o k = some (JVal.str s) := by
  obtain ⟨v, hv, hs⟩ := bind_ok h
  have := asStr_ok hs
  rw [this] at hv
  exact getItem_ok hv

theorem getInt_ok {o : Jobj} {k : String} {n : Int}
    (h : getInt o k = Except.ok n) :
    ∃ s, Jobj.get? o k = some (JVal.str s) ∧ pyInt s = Except.ok n := by
  obtain ⟨s, hs, hp⟩ := bind_ok h
  exact ⟨s, getStr_ok hs, hp⟩

theorem getFloat_ok {o : Jobj} {k : String} {q : PyNum}
    (h : getFloat o k = Except.ok q) :
    ∃ s, Jobj.get? o k = some (JVal.str s) ∧ pyFloat s = Except.ok q := by
  obtain ⟨s, hs, hp⟩ := bind_ok h
  exact ⟨s, getStr_ok hs, hp⟩

theorem subValue_key {o : Jobj} {k : String} {s : String}
    (h : subValue o k = Except.ok s) : (Jobj.get? o k).isSome := by
  obtain ⟨v, hv, _⟩ := bind_ok h
  rw [getItem_ok hv]
  rfl

theorem onlyStructured_bind {α β : Type} {x : Except PyErr α} {f : α → Except PyErr β}
    (hx : onlyStructured x) (hf : ∀ a, onlyStructured (f a)) :
    onlyStructured (x >>= f) := by
  intro e he
  rcases bind_err he with h | ⟨a, _, hfa⟩
  · exact hx e h
  · exact hf a e hfa

theorem onlyStructured_pure {α : Type} (a : α) :
    onlyStructured (pure a : Except PyErr α) := by
  intro e he
  exact Except.noConfusion he

theorem pyInt_structured (s : String) : onlyStructured (pyInt s) := by
  intro e he
  simp only [pyInt] at he
  split at he
  · exact Except.noConfusion he
  · injection he with h2
    rw [← h2]
    trivial

theorem pyFloat_structured (s : String) : onlyStructured (pyFloat s) := by
  intro e he
  simp only [pyFloat] at he
  split at he <;> try split at he
  all_goals
    first
      | exact Except.noConfusion he
      | (injection he with h2; rw [← h2]; trivial)

theorem getItem_structured (o : Jobj) (k : String) : onlyStructured (getItem o k) := by
  intro e he
  unfold getItem at he
  cases hh : Jobj.get? o k with
  | none => rw [hh] at he; injection he with h2; rw [← h2]; trivial
  | some w => rw [hh] at he; exact Except.noConfusion he

theorem asStr_structured (v : JVal) : onlyStructured v.asStr := by
  intro e he
  cases v <;> first
    | exact Except.noConfusion he
    | (injection he with h2; rw [← h2]; trivial)

theorem asObj_structured (v : JVal) : onlyStructured v.asObj := by
  intro e he
  cases v <;> first
    | exact Except.noConfusion he
    | (injection he with h2; rw [← h2]; trivial)

theorem first_structured (v : JVal) : onlyStructured v.first := by
  intro e he
  cases v with
  | str t => injection he with h2; rw [← h2]; trivial
  | obj o => injection he with h2; rw [← h2]; trivial
  | arr a =>
    cases a with
    | nil => injection he with h2; rw [← h2]; trivial
    | cons y t => exact Except.noConfusion he

theorem getStr_structured (o : Jobj) (k : String) : onlyStructured (getStr o k) :=
  onlyStructured_bind (getItem_structured o k) asStr_structured

theorem getInt_structured (o : Jobj) (k : String) : onlyStructured (getInt o k) :=
  onlyStructured_bind (getStr_structured o k) pyInt_structured

theorem getFloat_structured (o : Jobj) (k : String) : onlyStructured (getFloat o k) :=
  onlyStructured_bind (getStr_structured o k) pyFloat_structured

theorem subValue_structured (o : Jobj) (k : String) : onlyStructured (subValue o k) := by
  unfold subValue
  refine onlyStructured_bind (getItem_structured o k) (fun v => ?_)
  refine onlyStructured_bind (first_structured v) (fun x => ?_)
  refine onlyStructured_bind (asObj_structured x) (fun eo => ?_)
  exact getStr_structured eo "value"

theorem getDescription_structured (j : Jobj) (l : Locale) :
    onlyStructured (getDescription j l) := by
  cases l with
  | english => exact subValue_structured j "weatherDesc"
  | other c => exact subValue_structured j ("lang_" ++ c)

theorem kindOfCode_structured (c : Int) : onlyStructured (Kind.ofCode c) := by
  intro e he
  unfold Kind.ofCode at he
  cases hh : kindTable.find? (fun p => p.1.contains c) with
  | none =>
    rw [hh] at he
    injection he with h2
    rw [← h2]
    trivial
  | some p =>
    rw [hh] at he
    exact Except.noConfusion he

theorem buildBase_structured (j : Jobj) (u : UnitS) (l : Locale) :
    onlyStructured (buildBase j u l) := by
  unfold buildBase
  refine onlyStructured_bind (getDescription_structured j l) (fun _ => ?_)
  refine onlyStructured_bind (getInt_structured j _) (fun _ => ?_)
  refine onlyStructured_bind (getInt_structured j _) (fun _ => ?_)
  refine onlyStructured_bind (getStr_structured j _) (fun _ => ?_)
  refine onlyStructured_bind (getInt_structured j _) (fun _ => ?_)
  refine onlyStructured_bind (getInt_structured j _) (fun a => ?_)
  refine onlyStructured_bind (kindOfCode_structured a) (fun _ => ?_)
  refine onlyStructured_bind (getInt_structured j _) (fun _ => ?_)
  refine onlyStructured_bind (getInt_structured j _) (fun _ => ?_)
  refine onlyStructured_bind (getFloat_structured j _) (fun _ => ?_)
  refine onlyStructured_bind (getFloat_structured j _) (fun _ => ?_)
  refine onlyStructured_bind (getInt_structured j _) (fun _ => ?_)
  refine onlyStructured_bind (getInt_structured j _) (fun _ => ?_)
  exact onlyStructured_pure _

theorem buildBase_ok {j : Jobj} {u : UnitS} {l : Locale} {b : BaseForecast}
    (h : buildBase j u l = Except.ok b) : baseFromPayload j u l b := by
  unfold buildBase at h
  obtain ⟨desc, hdesc, h⟩ := bind_ok h
  obtain ⟨uvRaw, huv, h⟩ := bind_ok h
  obtain ⟨hum, hhum, h⟩ := bind_ok h
  obtain ⟨wdLabel, hwdl, h⟩ := bind_ok h
  obtain ⟨wdDeg, hwdd, h⟩ := bind_ok h
  obtain ⟨kc, hkc, h⟩ := bind_ok h
  obtain ⟨kind, hkind, h⟩ := bind_ok h
  obtain ⟨feels, hfeels, h⟩ := bind_ok h
  obtain ⟨temp, htemp, h⟩ := bind_ok h
  obtain ⟨precip, hprecip, h⟩ := bind_ok h
  obtain ⟨pres, hpres, h⟩ := bind_ok h
  obtain ⟨vis, hvis, h⟩ := bind_ok h
  obtain ⟨wind, hwind, h⟩ := bind_ok h
  have hb := pure_ok h
  subst hb
  refine ⟨⟨desc, hdesc, rfl⟩, ?_, ?_, ?_, ?_, ?_, ?_, ?_, ?_, ?_, ?_⟩
  · obtain ⟨s, hs, hp⟩ := getInt_ok huv
    exact ⟨s, uvRaw, hs, hp, rfl⟩
  · exact getInt_ok hhum
  · obtain ⟨s, hs, hp⟩ := getInt_ok hwdd
    exact ⟨wdLabel, s, getStr_ok hwdl, hs, hp, rfl⟩
  · obtain ⟨s, hs, hp⟩ := getInt_ok hkc
    exact ⟨s, kc, hs, hp, hkind⟩
  · exact getInt_ok hfeels
  · exact getInt_ok htemp
  · exact getFloat_ok hprecip
  · exact getFloat_ok hpres
  · exact getInt_ok hvis
  · exact getInt_ok hwind

theorem buildBase_keys {j : Jobj} {u : UnitS} {l : Locale} {b : BaseForecast}
    (h : buildBase j u l = Except.ok b) :
    ∀ k ∈ requiredBaseKeys u l, (Jobj.get? j k).isSome := by
  obtain ⟨⟨d, hd, _⟩, ⟨s1, n1, h1, _, _⟩, ⟨s2, h2, _⟩, ⟨lb, s3, h3a, h3b, _, _⟩,
    ⟨s4, n4, h4, _, _⟩, ⟨s5, h5, _⟩, ⟨s6, h6, _⟩, ⟨s7, h7, _⟩, ⟨s8, h8, _⟩,
    ⟨s9, h9, _⟩, ⟨s10, h10, _⟩⟩ := buildBase_ok h
  have hdescKey : (Jobj.get? j (descKey l)).isSome := by
    cases l with
    | english => exact subValue_key hd
    | other c => exact subValue_key hd
  intro k hk
  simp only [requiredBaseKeys, List.mem_cons, List.not_mem_nil, or_false] at hk
  rcases hk with rfl | rfl | rfl | rfl | rfl | rfl | rfl | rfl | rfl | rfl | rfl | rfl
  · exact hdescKey
  · rw [h1]; rfl
  · rw [h2]; rfl
  · rw [h3a]; rfl
  · rw [h3b]; rfl
  · rw [h4]; rfl
  · rw [h5]; rfl
  · rw [h6]; rfl
  · rw [h7]; rfl
  · rw [h8]; rfl
  · rw [h9]; rfl
  · rw [h10]; rfl

/-- C2: for every raw payload sub-object handed to the forecast model
builder, (i) a successful build takes every field from the payload by
coercion — nothing is silently defaulted; (ii) a missing required key makes
the build fail with a structured data error; (iii) a `int()` or `float()`
coercion failure on a required key's string makes the build fail with a
structured data error; (iv) every failure is one single structured error of
the `MalformedPayloadError` family (`KeyError`/`ValueError`/`TypeError`/
`IndexError`), which `Weather._format_content` re-raises unchanged. -/
theorem c2_malformed_payload (j : Jobj) (u : UnitS) (l : Locale) :
    (∀ b, buildBase j u l = Except.ok b → baseFromPayload j u l b)
    ∧ (∀ k ∈ requiredBaseKeys u l, Jobj.get? j k = none →
        ∃ e, buildBase j u l = Except.error e ∧ structuredErr e)
    ∧ (∀ k ∈ requiredIntKeys u, ∀ s, Jobj.get? j k = some (JVal.str s) →
        (∀ n : Int, pyInt s ≠ Except.ok n) →
        ∃ e, buildBase j u l = Except.error e ∧ structuredErr e)
    ∧ (∀ k ∈ requiredFloatKeys u, ∀ s, Jobj.get? j k = some (JVal.str s) →
        (∀ q : PyNum, pyFloat s ≠ Except.ok q) →
        ∃ e, buildBase j u l = Except.error e ∧ structuredErr e)
    ∧ (∀ e, buildBase j u l = Except.error e → structuredErr e) := by
  have herr : ∀ (hne : ∀ b, buildBase j u l ≠ Except.ok b),
      ∃ e, buildBase j u l = Except.error e ∧ structuredErr e := by
    intro hne
    cases hres : buildBase j u l with
    | ok b => exact absurd hres (hne b)
    | error e => exact ⟨e, rfl, buildBase_structured j u l e hres⟩
  refine ⟨fun b hb => buildBase_ok hb, ?_, ?_, ?_, buildBase_structured j u l⟩
  · intro k hk hnone
    refine herr (fun b hb => ?_)
    have := buildBase_keys hb k hk
    rw [hnone] at this
    simp at this
  · intro k hk s hs hbad
    refine herr (fun b hb => ?_)
    obtain ⟨_, ⟨s1, n1, h1, hp1, _⟩, ⟨s2, hp2a, hp2⟩, ⟨lb, s3, _, h3, hp3, _⟩,
      ⟨s4, n4, h4, hp4, _⟩, ⟨s5, hp5a, hp5⟩, ⟨s6, hp6a, hp6⟩, _, _,
      ⟨s9, hp9a, hp9⟩, ⟨s10, hp10a, hp10⟩⟩ := buildBase_ok hb
    simp only [requiredIntKeys, List.mem_cons, List.not_mem_nil, or_false] at hk
    rcases hk with rfl | rfl | rfl | rfl | rfl | rfl | rfl | rfl
    · rw [h1] at hs; injection hs with hs2; injection hs2 with hs3
      exact hbad n1 (hs3 ▸ hp1)
    · rw [hp2a] at hs; injection hs with hs2; injection hs2 with hs3
      exact hbad b.humidity (hs3 ▸ hp2)
    · rw [h3] at hs; injection hs with hs2; injection hs2 with hs3
      exact hbad b.wind_direction.degrees (hs3 ▸ hp3)
    · rw [h4] at hs; injection hs with hs2; injection hs2 with hs3
      exact hbad n4 (hs3 ▸ hp4)
    · rw [hp5a] at hs; injection hs with hs2; injection hs2 with hs3
      exact hbad b.feels_like (hs3 ▸ hp5)
    · rw [hp6a] at hs; injection hs with hs2; injection hs2 with hs3
      exact hbad b.temperature (hs3 ▸ hp6)
    · rw [hp9a] at hs; injection hs with hs2; injection hs2 with hs3
      exact hbad b.visibility (hs3 ▸ hp9)
    · rw [hp10a] at hs; injection hs with hs2; injection hs2 with hs3
      exact hbad b.wind_speed (hs3 ▸ hp10)
  · intro k hk s hs hbad
    refine herr (fun b hb => ?_)
    obtain ⟨_, _, _, _, _, _, _, ⟨s7, hp7a, hp7⟩, ⟨s8, hp8a, hp8⟩, _, _⟩ :=
      buildBase_ok hb
    simp only [requiredFloatKeys, List.mem_cons, List.not_mem_nil, or_false] at hk
    rcases hk with rfl | rfl
    · rw [hp7a] at hs; injection hs with hs2; injection hs2 with hs3
      exact hbad b.precipitation (hs3 ▸ hp7)
    · rw [hp8a] at hs; injection hs with hs2; injection hs2 with hs3
      exact hbad b.pressure (hs3 ▸ hp8)

theorem c2_malformed_payload_witness :
    ∃ e, buildBase [] IMPERIAL Locale.english = Except.error e ∧ structuredErr e :=
  (c2_malformed_payload [] IMPERIAL Locale.english).2.1 "humidity"
    (by simp [requiredBaseKeys, descKey]) rfl

/-- C7: every hourly record's local clock time is parsed from its 3-4 digit
`HHMM` time string — an empty or shorter-than-3-character string yields
midnight 00:00, `"900"` yields 09:00, `"1430"` yields 14:30 — and the
constructed `HourlyForecast.time` is exactly this parse of the (normalized)
record's `time` field. -/
theorem c7_hourly_time :
    (∀ t : String, t.length < 3 → parseHHMM t = Except.ok ⟨0, 0⟩)
    ∧ parseHHMM "0" = Except.ok ⟨0, 0⟩
    ∧ parseHHMM "" = Except.ok ⟨0, 0⟩
    ∧ parseHHMM "900" = Except.ok ⟨9, 0⟩
    ∧ parseHHMM "1430" = Except.ok ⟨14, 30⟩
    ∧ (∀ j j2 u l h, normalizeHourly j = Except.ok j2 →
        buildHourly j u l = Except.ok h →
        ∃ t, Jobj.get? j2 "time" = some (JVal.str t) ∧ parseHHMM t = Except.ok h.time) := by
  refine ⟨?_, rfl, rfl, rfl, rfl, ?_⟩
  · intro t ht
    unfold parseHHMM
    rw [if_pos ht]
  · intro j j2 u l h hn hb
    unfold buildHourly at hb
    obtain ⟨jn, hjn, hb⟩ := bind_ok hb
    rw [hn] at hjn
    injection hjn with hjn2
    subst hjn2
    unfold hourlyFields at hb
    obtain ⟨ci, hci, hb⟩ := bind_ok hb
    obtain ⟨t, ht, hb⟩ := bind_ok hb
    obtain ⟨fog, _, hb⟩ := bind_ok hb
    obtain ⟨frost, _, hb⟩ := bind_ok hb
    obtain ⟨hight, _, hb⟩ := bind_ok hb
    obtain ⟨overc, _, hb⟩ := bind_ok hb
    obtain ⟨rain, _, hb⟩ := bind_ok hb
    obtain ⟨remdry, _, hb⟩ := bind_ok hb
    obtain ⟨snow, _, hb⟩ := bind_ok hb
    obtain ⟨sunsh, _, hb⟩ := bind_ok hb
    obtain ⟨thund, _, hb⟩ := bind_ok hb
    obtain ⟨windy, _, hb⟩ := bind_ok hb
    obtain ⟨cloud, _, hb⟩ := bind_ok hb
    obtain ⟨tod, htod, hb⟩ := bind_ok hb
    obtain ⟨dew, _, hb⟩ := bind_ok hb
    obtain ⟨hid, _, hb⟩ := bind_ok hb
    obtain ⟨chill, _, hb⟩ := bind_ok hb
    obtain ⟨gust, _, hb⟩ := bind_ok hb
    obtain ⟨base, _, hb⟩ := bind_ok hb
    have hrec := pure_ok hb
    subst hrec
    exact ⟨t, getStr_ok ht, htod⟩

theorem c7_hourly_time_witness : parseHHMM "99" = Except.ok ⟨0, 0⟩ :=
  c7_hourly_time.1 "99" (by decide)

/-- C10: constructing a `HourlyForecast` rewrites the caller-supplied raw
mapping exactly as claimed — when `temp_C` (resp. `temp_F`) is absent, the
`tempC` (resp. `tempF`) binding is removed and its value re-inserted under
`temp_C` (resp. `temp_F`); a mapping that already has the key is left alone
there; and no other key is added, removed or changed.  The construction
(`buildHourly`) then reads every field from this mutated mapping. -/
theorem c10_hourly_mutation :
    ∀ j j2, normalizeHourly j = Except.ok j2 →
      (∀ k, k ≠ "temp_C" → k ≠ "tempC" → k ≠ "temp_F" → k ≠ "tempF" →
        Jobj.get? j2 k = Jobj.get? j k)
      ∧ (Jobj.get? j "temp_C" = none →
          Jobj.get? j2 "temp_C" = Jobj.get? j "tempC" ∧ Jobj.get? j2 "tempC" = none)
      ∧ (∀ v, Jobj.get? j "temp_C" = some v →
          Jobj.get? j2 "temp_C" = some v ∧ Jobj.get? j2 "tempC" = Jobj.get? j "tempC")
      ∧ (Jobj.get? j "temp_F" = none →
          Jobj.get? j2 "temp_F" = Jobj.get? j "tempF" ∧ Jobj.get? j2 "tempF" = none)
      ∧ (∀ v, Jobj.get? j "temp_F" = some v →
          Jobj.get? j2 "temp_F" = some v ∧ Jobj.get? j2 "tempF" = Jobj.get? j "tempF")
      ∧ (∀ u l, buildHourly j u l = hourlyFields j2 u l) := by
  intro j j2 hn
  have hbuild : ∀ u l, buildHourly j u l = hourlyFields j2 u l := by
    intro u l
    unfold buildHourly
    rw [hn]
    rfl
  unfold normalizeHourly at hn
  obtain ⟨j1, hj1, hstep2⟩ := bind_ok hn
  unfold normalizeStepC at hj1
  unfold normalizeStepF at hstep2
  have hC : ((Jobj.get? j "temp_C").isSome ∧ j1 = j) ∨
      (∃ v, Jobj.get? j "temp_C" = none ∧ Jobj.get? j "tempC" = some v ∧
        j1 = (j.erase "tempC").set "temp_C" v) := by
    by_cases hc : (Jobj.get? j "temp_C").isSome
    · rw [if_pos hc] at hj1
      exact Or.inl ⟨hc, (Except.ok.inj hj1).symm⟩
    · rw [if_neg hc] at hj1
      cases hv : Jobj.get? j "tempC" with
      | none => rw [hv] at hj1; exact absurd hj1 (fun hh => Except.noConfusion hh)
      | some v =>
        rw [hv] at hj1
        exact Or.inr ⟨v, Option.not_isSome_iff_eq_none.mp hc, rfl, (Except.ok.inj hj1).symm⟩
  have hF : ((Jobj.get? j1 "temp_F").isSome ∧ j2 = j1) ∨
      (∃ v, Jobj.get? j1 "temp_F" = none ∧ Jobj.get? j1 "tempF" = some v ∧
        j2 = (j1.erase "tempF").set "temp_F" v) := by
    by_cases hc : (Jobj.get? j1 "temp_F").isSome
    · rw [if_pos hc] at hstep2
      exact Or.inl ⟨hc, (Except.ok.inj hstep2).symm⟩
    · rw [if_neg hc] at hstep2
      cases hv : Jobj.get? j1 "tempF" with
      | none => rw [hv] at hstep2; exact absurd hstep2 (fun hh => Except.noConfusion hh)
      | some v =>
        rw [hv] at hstep2
        exact Or.inr ⟨v, Option.not_isSome_iff_eq_none.mp hc, rfl, (Except.ok.inj hstep2).symm⟩
  have j1F : Jobj.get? j1 "temp_F" = Jobj.get? j "temp_F" := by
    rcases hC with ⟨_, rfl⟩ | ⟨v, _, _, rfl⟩
    · rfl
    · rw [get?_set_ne _ _ _ _ (by decide), get?_erase_ne _ _ _ (by decide)]
  have j1tF : Jobj.get? j1 "tempF" = Jobj.get? j "tempF" := by
    rcases hC with ⟨_, rfl⟩ | ⟨v, _, _, rfl⟩
    · rfl
    · rw [get?_set_ne _ _ _ _ (by decide), get?_erase_ne _ _ _ (by decide)]
  have j2C : Jobj.get? j2 "temp_C" = Jobj.get? j1 "temp_C" := by
    rcases hF with ⟨_, rfl⟩ | ⟨v, _, _, rfl⟩
    · rfl
    · rw [get?_set_ne _ _ _ _ (by decide), get?_erase_ne _ _ _ (by decide)]
  have j2tC : Jobj.get? j2 "tempC" = Jobj.get? j1 "tempC" := by
    rcases hF with ⟨_, rfl⟩ | ⟨v, _, _, rfl⟩
    · rfl
    · rw [get?_set_ne _ _ _ _ (by decide), get?_erase_ne _ _ _ (by decide)]
  refine ⟨?_, ?_, ?_, ?_, ?_, hbuild⟩
  · intro k hk1 hk2 hk3 hk4
    have s1 : Jobj.get? j1 k = Jobj.get? j k := by
      rcases hC with ⟨_, rfl⟩ | ⟨v, _, _, rfl⟩
      · rfl
      · rw [get?_set_ne _ _ _ _ hk1, get?_erase_ne _ _ _ hk2]
    have s2 : Jobj.get? j2 k = Jobj.get? j1 k := by
      rcases hF with ⟨_, rfl⟩ | ⟨v, _, _, rfl⟩
      · rfl
      · rw [get?_set_ne _ _ _ _ hk3, get?_erase_ne _ _ _ hk4]
    rw [s2, s1]
  · intro hnoC
    rcases hC with ⟨hc, rfl⟩ | ⟨v, _, hvC, rfl⟩
    · rw [hnoC] at hc; exact absurd hc (by simp)
    · constructor
      · rw [j2C, get?_set_self, hvC]
      · rw [j2tC, get?_set_ne _ _ _ _ (by decide), get?_erase_self]
  · intro v hv
    rcases hC with ⟨_, rfl⟩ | ⟨w, hnoC, _, rfl⟩
    · exact ⟨j2C.trans hv, j2tC⟩
    · rw [hv] at hnoC; exact Option.noConfusion hnoC
  · intro hnoF
    rcases hF with ⟨hc, rfl⟩ | ⟨v, _, hvF, rfl⟩
    · rw [j1F, hnoF] at hc; exact absurd hc (by simp)
    · constructor
      · rw [get?_set_self, ← j1tF, hvF]
      · rw [get?_set_ne _ _ _ _ (by decide), get?_erase_self]
  · intro v hv
    rcases hF with ⟨_, rfl⟩ | ⟨w, hnoF, _, rfl⟩
    · exact ⟨j1F.trans hv, j1tF⟩
    · rw [j1F, hv] at hnoF; exact Option.noConfusion hnoF

theorem c10_hourly_mutation_witness :
    Jobj.get? sampleHourNorm "temp_C" = Jobj.get? sampleHour "tempC"
    ∧ Jobj.get? sampleHourNorm "tempC" = none :=
  (c10_hourly_mutation sampleHour sampleHourNorm rfl).2.1 rfl

/-- C1, as stated, fails on the code: an unknown tool name (step 1) raises
`ValueError("Unknown tool: …")` before the try-block, so it is surfaced
unwrapped — it is not re-raised as the `RuntimeError("Weather API error:
…")` wrapper the spec calls `ToolExecutionError`. -/
theorem c1_counterexample :
    callTool "nope" (JVal.obj []) (Except.error (PyErr.requestError "boom"))
      = Except.error (PyErr.valueError "Unknown tool: nope")
    ∧ isRuntimeError (PyErr.valueError "Unknown tool: nope") = false :=
  ⟨rfl, rfl⟩

/-- C1 (amended): an unknown tool name or invalid arguments fail with a
`ValueError` carrying the original message, surfaced unwrapped; only an
error raised inside the try-block — the weather fetch of step 3 — is
wrapped into `RuntimeError("Weather API error: " + str(e))` (the spec's
`ToolExecutionError`).  In every case the handler returns an error value to
its caller rather than crashing. -/
theorem c1_tool_errors (name : String) (args : JVal) (fetched : Except PyErr Forecast) :
    (name ≠ "get_current_weather" →
      callTool name args fetched = Except.error (PyErr.valueError ("Unknown tool: " ++ name)))
    ∧ (name = "get_current_weather" → validArguments args = false →
      callTool name args fetched = Except.error (PyErr.valueError "Invalid weather arguments"))
    ∧ (∀ e, name = "get_current_weather" → validArguments args = true →
        fetched = Except.error e →
        callTool name args fetched
          = Except.error (PyErr.runtimeError ("Weather API error: " ++ e.message)))
    ∧ (∀ w, name = "get_current_weather" → validArguments args = true →
        fetched = Except.ok w →
        callTool name args fetched = Except.ok [ToolContent.text (serializeWeather w)]) := by
  refine ⟨?_, ?_, ?_, ?_⟩
  · intro hne
    unfold callTool
    rw [if_pos hne]
  · intro hname hargs
    subst hname
    unfold callTool
    rw [if_neg (fun hh => hh rfl), if_pos (by simp [hargs])]
  · intro e hname hargs hf
    subst hname
    subst hf
    unfold callTool
    rw [if_neg (fun hh => hh rfl), if_neg (by simp [hargs])]
  · intro w hname hargs hf
    subst hname
    subst hf
    unfold callTool
    rw [if_neg (fun hh => hh rfl), if_neg (by simp [hargs])]

theorem c1_tool_errors_witness :
    callTool "get_current_weather" (JVal.obj [("location_name", js "Berlin")])
      (Except.error (PyErr.requestError "boom"))
      = Except.error
          (PyErr.runtimeError ("Weather API error: " ++ (PyErr.requestError "boom").message)) :=
  (c1_tool_errors "get_current_weather" (JVal.obj [("location_name", js "Berlin")])
    (Except.error (PyErr.requestError "boom"))).2.2.1 (PyErr.requestError "boom") rfl rfl rfl

theorem fetchGo_attempts_le (responder : Nat → HttpEvent) (u : UnitS) (l : Locale) :
    ∀ n a, (fetchGo responder u l a n).attempts ≤ n := by
  intro n
  induction n with
  | zero => intro a; simp [fetchGo]
  | succ r ih =>
    intro a
    simp only [fetchGo]
    cases responder a with
    | netError m => simp
    | response st body =>
      by_cases h1 : st = 404 ∧ body.isSome
      · simp [h1]
      · by_cases h2 : 200 ≤ st ∧ st < 300
        · simp [h1, h2]
        · by_cases h3 : r = 0
          · simp [h1, h2, h3]
          · simp only [h1, h2, h3, if_false, if_neg]
            exact Nat.succ_le_succ (ih (a + 1))

theorem fetchGo_fail_step {responder : Nat → HttpEvent} {u : UnitS} {l : Locale}
    {attempt r : Nat} {st : Nat} {body : Option Jobj}
    (hresp : responder attempt = HttpEvent.response st body)
    (hfail : httpFailure st body) (hr : r ≠ 0) :
    fetchGo responder u l attempt (r + 1)
      = ⟨(fetchGo responder u l (attempt + 1) r).attempts + 1,
         (attempt + 1) :: (fetchGo responder u l (attempt + 1) r).sleeps,
         (fetchGo responder u l (attempt + 1) r).result⟩ := by
  have h2 : ¬(200 ≤ st ∧ st < 300) := fun hh => by
    have := hfail.1
    omega
  simp only [fetchGo, hresp]
  rw [if_neg hfail.2, if_neg h2, if_neg hr]
  simp

theorem fetchGo_last_fail {responder : Nat → HttpEvent} {u : UnitS} {l : Locale}
    {attempt : Nat} {st : Nat} {body : Option Jobj}
    (hresp : responder attempt = HttpEvent.response st body)
    (hfail : httpFailure st body) :
    fetchGo responder u l attempt 1 = ⟨1, [], Except.error (PyErr.httpStatusError st)⟩ := by
  have h2 : ¬(200 ≤ st ∧ st < 300) := fun hh => by
    have := hfail.1
    omega
  show fetchGo responder u l attempt (0 + 1) = _
  simp only [fetchGo, hresp]
  rw [if_neg hfail.2, if_neg h2, if_pos trivial]

theorem fetchGo_2xx {responder : Nat → HttpEvent} {u : UnitS} {l : Locale}
    {attempt r : Nat} {st : Nat} {body : Option Jobj}
    (hresp : responder attempt = HttpEvent.response st body)
    (h2xx : 200 ≤ st ∧ st < 300) :
    fetchGo responder u l attempt (r + 1) = ⟨1, [], formatContent body u l⟩ := by
  have h404 : ¬(st = 404 ∧ body.isSome) := fun hh => by
    have := h2xx.2
    omega
  simp only [fetchGo, hresp]
  rw [if_neg h404, if_pos h2xx]

theorem fetchGo_404 {responder : Nat → HttpEvent} {u : UnitS} {l : Locale}
    {attempt r : Nat} {body : Jobj}
    (hresp : responder attempt = HttpEvent.response 404 (some body)) :
    fetchGo responder u l attempt (r + 1) = ⟨1, [], formatContent (some body) u l⟩ := by
  simp only [fetchGo, hresp]
  rw [if_pos ⟨trivial, rfl⟩]

/-- C3: the client makes at most 3 attempts; when the first three answers
are HTTP-status failures (4xx/5xx outside the 404-with-body special case)
it makes exactly 3 attempts, sleeps `1 * attempt_number` seconds between
attempts (1s then 2s — linear backoff), and raises the third attempt's
status error rather than swallowing it; and two such failures followed by a
2xx answer give exactly 3 attempts, the same sleeps, and the parsed third
body as the result. -/
theorem c3_retry_policy (responder : Nat → HttpEvent) (u : UnitS) (l : Locale) :
    (fetchUrl responder u l).attempts ≤ 3
    ∧ (∀ s0 b0 s1 b1 s2 b2,
        responder 0 = HttpEvent.response s0 b0 → httpFailure s0 b0 →
        responder 1 = HttpEvent.response s1 b1 → httpFailure s1 b1 →
        responder 2 = HttpEvent.response s2 b2 → httpFailure s2 b2 →
        fetchUrl responder u l = ⟨3, [1, 2], Except.error (PyErr.httpStatusError s2)⟩)
    ∧ (∀ s0 b0 s1 b1 body,
        responder 0 = HttpEvent.response s0 b0 → httpFailure s0 b0 →
        responder 1 = HttpEvent.response s1 b1 → httpFailure s1 b1 →
        responder 2 = HttpEvent.response 200 (some body) →
        fetchUrl responder u l = ⟨3, [1, 2], buildForecast body u l⟩) := by
  refine ⟨fetchGo_attempts_le responder u l 3 0, ?_, ?_⟩
  · intro s0 b0 s1 b1 s2 b2 h0 hf0 h1 hf1 h2 hf2
    have t2 : fetchGo responder u l 2 1 = ⟨1, [], Except.error (PyErr.httpStatusError s2)⟩ :=
      fetchGo_last_fail h2 hf2
    have t1 : fetchGo responder u l 1 2 = ⟨2, [2], Except.error (PyErr.httpStatusError s2)⟩ := by
      have hs := fetchGo_fail_step (u := u) (l := l) (r := 1) h1 hf1 one_ne_zero
      simp only [show (1 : Nat) + 1 = 2 from rfl] at hs
      rw [hs, t2]
    have t0 : fetchGo responder u l 0 3 = ⟨3, [1, 2], Except.error (PyErr.httpStatusError s2)⟩ := by
      have hs := fetchGo_fail_step (u := u) (l := l) (r := 2) h0 hf0 (by decide)
      simp only [show (2 : Nat) + 1 = 3 from rfl, show (0 : Nat) + 1 = 1 from rfl] at hs
      rw [hs, t1]
    exact t0
  · intro s0 b0 s1 b1 body h0 hf0 h1 hf1 h2
    have t2 : fetchGo responder u l 2 1 = ⟨1, [], formatContent (some body) u l⟩ := by
      have hs := fetchGo_2xx (u := u) (l := l) (r := 0) h2 (by omega)
      simpa using hs
    have t1 : fetchGo responder u l 1 2 = ⟨2, [2], formatContent (some body) u l⟩ := by
      have hs := fetchGo_fail_step (u := u) (l := l) (r := 1) h1 hf1 one_ne_zero
      simp only [show (1 : Nat) + 1 = 2 from rfl] at hs
      rw [hs, t2]
    have t0 : fetchGo responder u l 0 3 = ⟨3, [1, 2], formatContent (some body) u l⟩ := by
      have hs := fetchGo_fail_step (u := u) (l := l) (r := 2) h0 hf0 (by decide)
      simp only [show (2 : Nat) + 1 = 3 from rfl, show (0 : Nat) + 1 = 1 from rfl] at hs
      rw [hs, t1]
    exact t0

theorem c3_retry_policy_witness :
    fetchUrl respRetrySample IMPERIAL Locale.english
      = ⟨3, [1, 2], buildForecast sampleBody IMPERIAL Locale.english⟩ :=
  (c3_retry_policy respRetrySample IMPERIAL Locale.english).2.2 500 none 500 none sampleBody
    rfl (by constructor <;> simp) rfl (by constructor <;> simp) rfl

/-- C4: an HTTP 404 answer with a non-empty body is treated as a successful
payload — exactly 1 attempt, no sleep, and the result is the normal parse
of that body. -/
theorem c4_404_nonempty (responder : Nat → HttpEvent) (u : UnitS) (l : Locale) (body : Jobj)
    (h : responder 0 = HttpEvent.response 404 (some body)) :
    fetchUrl responder u l = ⟨1, [], buildForecast body u l⟩ := by
  have := fetchGo_404 (u := u) (l := l) (r := 2) h
  exact this

theorem c4_404_nonempty_witness :
    fetchUrl resp404Sample IMPERIAL Locale.english
      = ⟨1, [], buildForecast sampleBody IMPERIAL Locale.english⟩
    ∧ buildForecast sampleBody IMPERIAL Locale.english = Except.ok sampleForecast :=
  ⟨c4_404_nonempty resp404Sample IMPERIAL Locale.english sampleBody rfl, rfl⟩

theorem ok_bind {α β : Type} (a : α) (f : α → Except PyErr β) :
    (Except.ok a >>= f) = f a := rfl

theorem getStr_congr {o o2 : Jobj} {k : String}
    (h : Jobj.get? o2 k = Jobj.get? o k) : getStr o2 k = getStr o k := by
  unfold getStr getItem
  rw [h]

theorem getInt_congr {o o2 : Jobj} {k : String}
    (h : Jobj.get? o2 k = Jobj.get? o k) : getInt o2 k = getInt o k := by
  unfold getInt
  rw [getStr_congr h]

theorem getFloat_congr {o o2 : Jobj} {k : String}
    (h : Jobj.get? o2 k = Jobj.get? o k) : getFloat o2 k = getFloat o k := by
  unfold getFloat
  rw [getStr_congr h]

theorem getItem_congr {o o2 : Jobj} {k : String}
    (h : Jobj.get? o2 k = Jobj.get? o k) : getItem o2 k = getItem o k := by
  unfold getItem
  rw [h]

theorem buildForecast_parts {j : Jobj} {u : UnitS} {l : Locale} {f : Forecast}
    (h : buildForecast j u l = Except.ok f) :
    ∃ current nearest ws dailies,
      currentObj j = Except.ok current
      ∧ nearestObj j = Except.ok nearest
      ∧ (getItem j "weather" >>= JVal.asArr) = Except.ok ws
      ∧ buildDailyList ws u l = Except.ok dailies
      ∧ coordsOf j nearest = Except.ok f.coordinates
      ∧ buildBase current u l = Except.ok f.base
      ∧ f.daily_forecasts = dailies := by
  unfold buildForecast at h
  obtain ⟨current, hc, h⟩ := bind_ok h
  obtain ⟨nearest, hn, h⟩ := bind_ok h
  obtain ⟨pop, _, h⟩ := bind_ok h
  obtain ⟨region, _, h⟩ := bind_ok h
  obtain ⟨loc, _, h⟩ := bind_ok h
  obtain ⟨country, _, h⟩ := bind_ok h
  obtain ⟨obsS, _, h⟩ := bind_ok h
  obtain ⟨dt, _, h⟩ := bind_ok h
  obtain ⟨coords, hco, h⟩ := bind_ok h
  obtain ⟨wV, hwV, h⟩ := bind_ok h
  obtain ⟨ws, hws, h⟩ := bind_ok h
  obtain ⟨dailies, hds, h⟩ := bind_ok h
  obtain ⟨base, hb, h⟩ := bind_ok h
  have hf := pure_ok h
  subst hf
  refine ⟨current, nearest, ws, dailies, hc, hn, ?_, hds, hco, hb, rfl⟩
  rw [hwV, ok_bind]
  exact hws

theorem buildDailyList_length :
    ∀ {ws : List JVal} {ds : List DailyForecast} {u : UnitS} {l : Locale},
      buildDailyList ws u l = Except.ok ds → ds.length = ws.length := by
  intro ws
  induction ws with
  | nil =>
    intro ds u l h
    have := pure_ok h
    subst this
    rfl
  | cons v rest ih =>
    intro ds u l h
    unfold buildDailyList at h
    obtain ⟨o, _, h⟩ := bind_ok h
    obtain ⟨d, _, h⟩ := bind_ok h
    obtain ⟨ds2, hds2, h⟩ := bind_ok h
    have := pure_ok h
    rw [← this]
    simp [ih hds2]

theorem buildDailyList_get :
    ∀ {ws : List JVal} {ds : List DailyForecast} {u : UnitS} {l : Locale},
      buildDailyList ws u l = Except.ok ds →
      ∀ (i : Nat) (v : JVal), ws[i]? = some v →
        ∃ o d, v.asObj = Except.ok o ∧ buildDaily o u l = Except.ok d ∧ ds[i]? = some d := by
  intro ws
  induction ws with
  | nil =>
    intro ds u l h i v hv
    simp at hv
  | cons w rest ih =>
    intro ds u l h i v hv
    unfold buildDailyList at h
    obtain ⟨o, ho, h⟩ := bind_ok h
    obtain ⟨d, hd, h⟩ := bind_ok h
    obtain ⟨ds2, hds2, h⟩ := bind_ok h
    have := pure_ok h
    subst this
    cases i with
    | zero =>
      simp only [List.getElem?_cons_zero] at hv
      injection hv with hv2
      subst hv2
      exact ⟨o, d, ho, hd, by simp⟩
    | succ n =>
      simp only [List.getElem?_cons_succ] at hv ⊢
      exact ih hds2 n v hv

/-- C5: a successful `call_tool("get_current_weather", …)` whose fetched
payload parses returns one text item whose `forecasts` list has exactly one
`{date, high_temperature, low_temperature}` entry per `weather[]` element,
in the same order: the `i`-th entry is built from the `i`-th `weather[]`
element. -/
theorem c5_forecast_order (args : JVal) (body : Jobj) (out : List ToolContent) (ws : List JVal)
    (h : callTool "get_current_weather" args (buildForecast body IMPERIAL Locale.english)
          = Except.ok out)
    (hw : Jobj.get? body "weather" = some (JVal.arr ws)) :
    ∃ f, buildForecast body IMPERIAL Locale.english = Except.ok f
      ∧ out = [ToolContent.text (serializeWeather f)]
      ∧ (serializeWeather f).forecasts.length = ws.length
      ∧ (∀ (i : Nat) (v : JVal), ws[i]? = some v →
          ∃ o d, v.asObj = Except.ok o
            ∧ buildDaily o IMPERIAL Locale.english = Except.ok d
            ∧ (serializeWeather f).forecasts[i]?
                = some ⟨strftimeYMD d.date, d.highest_temperature, d.lowest_temperature⟩) := by
  unfold callTool at h
  rw [if_neg (fun hh => hh rfl)] at h
  by_cases hargs : validArguments args
  · rw [if_neg (by simp [hargs])] at h
    cases hbf : buildForecast body IMPERIAL Locale.english with
    | error e =>
      rw [hbf] at h
      exact Except.noConfusion h
    | ok f =>
      rw [hbf] at h
      injection h with h2
      obtain ⟨current, nearest, ws2, dailies, hc, hn, hwarr, hds, hco, hb, hdf⟩ :=
        buildForecast_parts hbf
      have hwitem : getItem body "weather" = Except.ok (JVal.arr ws) := by
        unfold getItem
        rw [hw]
      rw [hwitem, ok_bind] at hwarr
      have hws2 : ws = ws2 := Except.ok.inj hwarr
      subst hws2
      refine ⟨f, rfl, h2.symm, ?_, ?_⟩
      · simp [serializeWeather, hdf, buildDailyList_length hds]
      · intro i v hv
        obtain ⟨o, d, ho, hd, hget⟩ := buildDailyList_get hds i v hv
        refine ⟨o, d, ho, hd, ?_⟩
        simp [serializeWeather, hdf, hget]
  · rw [if_pos (by simp [hargs])] at h
    exact Except.noConfusion h

theorem c5_forecast_order_witness :
    ∃ f, buildForecast sampleBody IMPERIAL Locale.english = Except.ok f
      ∧ sampleOutput = [ToolContent.text (serializeWeather f)]
      ∧ (serializeWeather f).forecasts.length
          = [JVal.obj sampleDay1, JVal.obj sampleDay2].length
      ∧ (∀ (i : Nat) (v : JVal), [JVal.obj sampleDay1, JVal.obj sampleDay2][i]? = some v →
          ∃ o d, v.asObj = Except.ok o
            ∧ buildDaily o IMPERIAL Locale.english = Except.ok d
            ∧ (serializeWeather f).forecasts[i]?
                = some ⟨strftimeYMD d.date, d.highest_temperature, d.lowest_temperature⟩) :=
  c5_forecast_order (JVal.obj [("location_name", js "Berlin")]) sampleBody sampleOutput
    [JVal.obj sampleDay1, JVal.obj sampleDay2] rfl rfl

theorem noLatLon_scan :
    ∀ reqs : List JVal, (∀ v ∈ reqs, isLatLonEntry v = false) → latLonScan reqs = none := by
  intro reqs h
  induction reqs with
  | nil => rfl
  | cons v rest ih =>
    have hv := h v (List.mem_cons_self v rest)
    have hrest : ∀ w ∈ rest, isLatLonEntry w = false :=
      fun w hw => h w (List.mem_cons_of_mem v hw)
    unfold latLonScan
    cases v with
    | str s => rfl
    | arr a => rfl
    | obj o =>
      unfold isLatLonEntry at hv
      have hv2 : (match Jobj.get? o "type" with
        | some (JVal.str t2) => decide (t2 = "LatLon")
        | _ => false) = false := hv
      show (match Jobj.get? o "type" with
        | some (JVal.str t2) => if t2 = "LatLon" then some o else latLonScan rest
        | some _ => latLonScan rest
        | none => none) = none
      cases hto : Jobj.get? o "type" with
      | none => rfl
      | some tv =>
        rw [hto] at hv2
        cases tv with
        | str t =>
          have ht : ¬ (t = "LatLon") := by simpa using hv2
          show (if t = "LatLon" then some o else latLonScan rest) = none
          rw [if_neg ht]
          exact ih hrest
        | arr a2 =>
          show latLonScan rest = none
          exact ih hrest
        | obj o2 =>
          show latLonScan rest = none
          exact ih hrest

/-- C6: when the request-echo array has no `LatLon`-typed entry the whole
coordinate try-block falls through (and likewise when the `LatLon` entry's
query fails the pattern match), in which case the Forecast's coordinates
are exactly `(float(nearest_area[0]["latitude"]),
float(nearest_area[0]["longitude"]))`; when the try-block parses, the
coordinates come from the request entry instead. -/
theorem c6_coordinates (j : Jobj) (u : UnitS) (l : Locale) (f : Forecast)
    (h : buildForecast j u l = Except.ok f) :
    (∀ reqs : List JVal, Jobj.get? j "request" = some (JVal.arr reqs) →
      (∀ v ∈ reqs, isLatLonEntry v = false) → latLonAttempt j = none)
    ∧ (∀ reqs o q, Jobj.get? j "request" = some (JVal.arr reqs) →
        latLonScan reqs = some o → Jobj.get? o "query" = some (JVal.str q) →
        latlonMatch q = none → latLonAttempt j = none)
    ∧ (latLonAttempt j = none →
        ∃ nearest la lo, nearestObj j = Except.ok nearest
          ∧ getFloat nearest "latitude" = Except.ok la
          ∧ getFloat nearest "longitude" = Except.ok lo
          ∧ f.coordinates = (la, lo))
    ∧ (∀ c, latLonAttempt j = some c → f.coordinates = c) := by
  obtain ⟨current, nearest, ws, dailies, hc, hn, _, _, hco, _, _⟩ := buildForecast_parts h
  refine ⟨?_, ?_, ?_, ?_⟩
  · intro reqs hreq hno
    unfold latLonAttempt
    rw [hreq]
    simp [noLatLon_scan reqs hno]
  · intro reqs o q hreq hscan hq hmatch
    unfold latLonAttempt
    rw [hreq]
    simp [hscan, hq, hmatch]
  · intro hnone
    unfold coordsOf at hco
    rw [hnone] at hco
    obtain ⟨la, hla, hco⟩ := bind_ok hco
    obtain ⟨lo, hlo, hco⟩ := bind_ok hco
    exact ⟨nearest, la, lo, hn, hla, hlo, (pure_ok hco).symm⟩
  · intro c hsome
    unfold coordsOf at hco
    rw [hsome] at hco
    exact (Except.ok.inj hco).symm

theorem c6_coordinates_witness :
    ∃ nearest la lo, nearestObj sampleBody = Except.ok nearest
      ∧ getFloat nearest "latitude" = Except.ok la
      ∧ getFloat nearest "longitude" = Except.ok lo
      ∧ sampleForecast.coordinates = (la, lo) :=
  (c6_coordinates sampleBody IMPERIAL Locale.english sampleForecast rfl).2.2.1 rfl

/-- C9: in every successful serialized response the `"uv_index"` field is
the UV band string derived from the payload's integer `uvIndex` — one of
Low/Moderate/High/Very High/Extreme — not the raw numeric index. -/
theorem c9_uv_band (j : Jobj) (u : UnitS) (l : Locale) (f : Forecast)
    (h : buildForecast j u l = Except.ok f) :
    ∃ current s n, currentObj j = Except.ok current
      ∧ Jobj.get? current "uvIndex" = some (JVal.str s)
      ∧ pyInt s = Except.ok n
      ∧ (serializeWeather f).uv_index = (UltraViolet.new n).band.name
      ∧ (serializeWeather f).uv_index ∈ ["Low", "Moderate", "High", "Very High", "Extreme"] := by
  obtain ⟨current, nearest, ws, dailies, hc, hn, _, _, _, hb, _⟩ := buildForecast_parts h
  obtain ⟨_, ⟨s, n, hs, hp, huv⟩, _⟩ := buildBase_ok hb
  refine ⟨current, s, n, hc, hs, hp, ?_, ?_⟩
  · simp [serializeWeather, UltraViolet.index, huv]
  · simp only [serializeWeather, UltraViolet.index]
    cases f.base.ultraviolet.band <;> simp [UVBand.name]

theorem c9_uv_band_witness :
    ∃ current s n, currentObj sampleBody = Except.ok current
      ∧ Jobj.get? current "uvIndex" = some (JVal.str s)
      ∧ pyInt s = Except.ok n
      ∧ (serializeWeather sampleForecast).uv_index = (UltraViolet.new n).band.name
      ∧ (serializeWeather sampleForecast).uv_index
          ∈ ["Low", "Moderate", "High", "Very High", "Extreme"] :=
  c9_uv_band sampleBody IMPERIAL Locale.english sampleForecast rfl

theorem append_ne_of_head {p t : String} {c1 c2 : Char} {cs : List Char}
    (hp : p.data = c1 :: c2 :: cs) (hc : ¬(c1 = 'a' ∧ c2 = 's')) :
    p ++ t ≠ "astronomy" := by
  intro hh
  have h2 : p.data ++ t.data = "astronomy".data := congrArg String.data hh
  rw [hp] at h2
  have h3 : c1 :: c2 :: (cs ++ t.data) = 'a' :: 's' :: "tronomy".data := h2
  injection h3 with h4 h5
  injection h5 with h6 _
  exact hc ⟨h4, h6⟩

theorem buildDaily_setAstro {j : Jobj} {u : UnitS} {l : Locale} {d : DailyForecast}
    (k : String) (s : String)
    (hk : k = "moonrise" ∨ k = "moonset" ∨ k = "sunrise" ∨ k = "sunset")
    (h : buildDaily j u l = Except.ok d) :
    buildDaily (setAstroField j k s) u l = Except.ok (setDailyTime d k (parse12 s)) := by
  unfold buildDaily at h
  obtain ⟨astroV, hA, h⟩ := bind_ok h
  obtain ⟨a0, hA0, h⟩ := bind_ok h
  obtain ⟨astro, hAo, h⟩ := bind_ok h
  obtain ⟨illum, hil, h⟩ := bind_ok h
  obtain ⟨phaseS, hphS, h⟩ := bind_ok h
  obtain ⟨phase, hph, h⟩ := bind_ok h
  obtain ⟨mrS, hmr, h⟩ := bind_ok h
  obtain ⟨msS, hms, h⟩ := bind_ok h
  obtain ⟨srS, hsr, h⟩ := bind_ok h
  obtain ⟨ssS, hss, h⟩ := bind_ok h
  obtain ⟨dateS, hdateS, h⟩ := bind_ok h
  obtain ⟨date, hdate, h⟩ := bind_ok h
  obtain ⟨sun, hsun, h⟩ := bind_ok h
  obtain ⟨lo, hlo, h⟩ := bind_ok h
  obtain ⟨hi, hhi, h⟩ := bind_ok h
  obtain ⟨avg, havg, h⟩ := bind_ok h
  obtain ⟨snow, hsnow, h⟩ := bind_ok h
  obtain ⟨hourlyV, hhv, h⟩ := bind_ok h
  obtain ⟨hlist, hhl, h⟩ := bind_ok h
  obtain ⟨hours, hhours, h⟩ := bind_ok h
  have hd := pure_ok h
  subst hd
  obtain ⟨rest, hAv⟩ := first_ok hA0
  have hAobj := asObj_ok hAo
  subst hAobj
  subst hAv
  have hgetA : Jobj.get? j "astronomy" = some (JVal.arr (JVal.obj astro :: rest)) :=
    getItem_ok hA
  have hj2 : setAstroField j k s
      = j.set "astronomy" (JVal.arr (JVal.obj (Jobj.set astro k (js s)) :: rest)) := by
    unfold setAstroField
    rw [hgetA]
  have hk_ill : ("moon_illumination" : String) ≠ k := by
    rcases hk with rfl | rfl | rfl | rfl <;> decide
  have hk_ph : ("moon_phase" : String) ≠ k := by
    rcases hk with rfl | rfl | rfl | rfl <;> decide
  have East : ∀ k2 : String, k2 ≠ k →
      Jobj.get? (Jobj.set astro k (js s)) k2 = Jobj.get? astro k2 :=
    fun k2 hne => get?_set_ne astro k k2 (js s) hne
  have Eill : getInt (Jobj.set astro k (js s)) "moon_illumination" = Except.ok illum :=
    (getInt_congr (East _ hk_ill)).trans hil
  have Eph : getStr (Jobj.set astro k (js s)) "moon_phase" = Except.ok phaseS :=
    (getStr_congr (East _ hk_ph)).trans hphS
  have Ek : getStr (Jobj.set astro k (js s)) k = Except.ok s := by
    unfold getStr getItem
    rw [get?_set_self]
    rfl
  have Emr : getStr (Jobj.set astro k (js s)) "moonrise"
      = Except.ok (if "moonrise" = k then s else mrS) := by
    by_cases hx : ("moonrise" : String) = k
    · rw [if_pos hx, hx]
      exact Ek
    · rw [if_neg hx]
      exact (getStr_congr (East _ hx)).trans hmr
  have Ems : getStr (Jobj.set astro k (js s)) "moonset"
      = Except.ok (if "moonset" = k then s else msS) := by
    by_cases hx : ("moonset" : String) = k
    · rw [if_pos hx, hx]
      exact Ek
    · rw [if_neg hx]
      exact (getStr_congr (East _ hx)).trans hms
  have Esr : getStr (Jobj.set astro k (js s)) "sunrise"
      = Except.ok (if "sunrise" = k then s else srS) := by
    by_cases hx : ("sunrise" : String) = k
    · rw [if_pos hx, hx]
      exact Ek
    · rw [if_neg hx]
      exact (getStr_congr (East _ hx)).trans hsr
  have Ess : getStr (Jobj.set astro k (js s)) "sunset"
      = Except.ok (if "sunset" = k then s else ssS) := by
    by_cases hx : ("sunset" : String) = k
    · rw [if_pos hx, hx]
      exact Ek
    · rw [if_neg hx]
      exact (getStr_congr (East _ hx)).trans hss
  have Etop : ∀ k2 : String, k2 ≠ "astronomy" →
      Jobj.get? (setAstroField j k s) k2 = Jobj.get? j k2 := by
    intro k2 hne
    rw [hj2]
    exact get?_set_ne j "astronomy" k2 _ hne
  have EgA : getItem (setAstroField j k s) "astronomy"
      = Except.ok (JVal.arr (JVal.obj (Jobj.set astro k (js s)) :: rest)) := by
    unfold getItem
    rw [hj2, get?_set_self]
  have Edate : getStr (setAstroField j k s) "date" = Except.ok dateS :=
    (getStr_congr (Etop _ (by decide))).trans hdateS
  have Esun : getFloat (setAstroField j k s) "sunHour" = Except.ok sun :=
    (getFloat_congr (Etop _ (by decide))).trans hsun
  have Elo : getInt (setAstroField j k s) ("mintemp" ++ u.temperature) = Except.ok lo :=
    (getInt_congr (Etop _ (append_ne_of_head rfl (by decide)))).trans hlo
  have Ehi : getInt (setAstroField j k s) ("maxtemp" ++ u.temperature) = Except.ok hi :=
    (getInt_congr (Etop _ (append_ne_of_head rfl (by decide)))).trans hhi
  have Eavg : getInt (setAstroField j k s) ("avgtemp" ++ u.temperature) = Except.ok avg :=
    (getInt_congr (Etop _ (append_ne_of_head rfl (by decide)))).trans havg
  have Esnow : getFloat (setAstroField j k s) "totalSnow_cm" = Except.ok snow :=
    (getFloat_congr (Etop _ (by decide))).trans hsnow
  have Ehv : getItem (setAstroField j k s) "hourly" = Except.ok hourlyV :=
    (getItem_congr (Etop _ (by decide))).trans hhv
  unfold buildDaily
  rw [EgA, ok_bind,
    show (JVal.arr (JVal.obj (Jobj.set astro k (js s)) :: rest)).first
      = Except.ok (JVal.obj (Jobj.set astro k (js s))) from rfl, ok_bind,
    show (JVal.obj (Jobj.set astro k (js s))).asObj
      = Except.ok (Jobj.set astro k (js s)) from rfl, ok_bind,
    Eill, ok_bind, Eph, ok_bind, hph, ok_bind, Emr, ok_bind, Ems, ok_bind,
    Esr, ok_bind, Ess, ok_bind, Edate, ok_bind, hdate, ok_bind, Esun, ok_bind,
    Elo, ok_bind, Ehi, ok_bind, Eavg, ok_bind, Esnow, ok_bind, Ehv, ok_bind,
    hhl, ok_bind, hhours, ok_bind]
  rcases hk with rfl | rfl | rfl | rfl <;> (simp [setDailyTime]; try rfl)

/-- C8: each astronomy time field goes through the total best-effort parse:
replacing any one of moonrise/moonset/sunrise/sunset in a daily record that
builds successfully by an arbitrary string (for example `"No moonrise"`)
still builds successfully, with that field set to the parse's result —
`none` (absent) when the string does not match `h:mm AM/PM`, the parsed
time when it does — and every other field unchanged. -/
theorem c8_astronomy_times :
    parse12 "No moonrise" = none
    ∧ parse12 "6:34 AM" = some ⟨6, 34⟩
    ∧ parse12 "9:12 PM" = some ⟨21, 12⟩
    ∧ (∀ (j : Jobj) (u : UnitS) (l : Locale) (d : DailyForecast) (k s : String),
        (k = "moonrise" ∨ k = "moonset" ∨ k = "sunrise" ∨ k = "sunset") →
        buildDaily j u l = Except.ok d →
        buildDaily (setAstroField j k s) u l
          = Except.ok (setDailyTime d k (parse12 s))) :=
  ⟨rfl, rfl, rfl, fun _ _ _ _ k s hk h => buildDaily_setAstro k s hk h⟩

theorem c8_astronomy_times_witness :
    buildDaily (setAstroField sampleDay1 "moonrise" "No moonrise") IMPERIAL Locale.english
      = Except.ok (setDailyTime sampleDaily1 "moonrise" (parse12 "No moonrise")) :=
  c8_astronomy_times.2.2.2 sampleDay1 IMPERIAL Locale.english sampleDaily1 "moonrise"
    "No moonrise" (Or.inl rfl) rfl

end WeatherMcp
